import Mathlib

/-!
Verification development for the `rain-on-trump` backend location engine.

The Python sources under `backend/app/` are shallowly embedded here:

* floats are modelled as `ℚ` (all constants in the source are exact decimals);
* UTC `datetime` values are modelled as `ℚ` seconds, `timedelta.total_seconds`
  becoming plain subtraction;
* Python `int(x)` (truncation towards zero) is `pyInt`, `round` is `pyRound`
  (half-to-even, as in Python 3);
* `math`-library trigonometry (`_haversine_km`) and the `dateutil` timezone
  database (conversion of a UTC instant to an America/New_York wall-clock
  hour) are third-party library calls, not repository code; they enter the
  embedding as explicit function parameters (`hav`, `localHour`) so every
  theorem quantifies over them, and concrete instances are supplied in
  closed evaluations;
* network feeds (`httpx` calls) are modelled as already-fetched inputs, and
  where error behaviour matters, as `Except`-valued behaviours with the
  adapter's `try/except` structure reproduced;
* Python `dict` candidates with optional keys become structures with
  `Option` fields; absence of a key is `none`.

`max`/`min` with a `key` reproduce CPython's first-wins tie behaviour
(`pyMaxBy`/`pyMinBy` replace the accumulator only on strict improvement).
-/

namespace RainOnTrump

/-! ## Python numeric helpers -/

/-- Python `int(x)`: truncation towards zero. -/
def pyInt (q : ℚ) : ℤ := if 0 ≤ q then ⌊q⌋ else ⌈q⌉

/-- Python 3 `round(x)`: round half to even. -/
def pyRound (q : ℚ) : ℤ :=
  let f := ⌊q⌋
  let r := q - f
  if r < 1/2 then f
  else if 1/2 < r then f + 1
  else if f % 2 = 0 then f else f + 1

theorem pyInt_nonneg {q : ℚ} (h : 0 ≤ q) : 0 ≤ pyInt q := by
  unfold pyInt
  rw [if_pos h]
  exact_mod_cast Int.floor_nonneg.mpr h

theorem pyInt_eq_floor {q : ℚ} (h : 0 ≤ q) : pyInt q = ⌊q⌋ := by
  unfold pyInt
  rw [if_pos h]

theorem pyInt_mono_of_nonneg {a b : ℚ} (ha : 0 ≤ a) (hab : a ≤ b) :
    pyInt a ≤ pyInt b := by
  rw [pyInt_eq_floor ha, pyInt_eq_floor (le_trans ha hab)]
  exact Int.floor_le_floor hab

theorem pyInt_le {q : ℚ} (h : 0 ≤ q) : (pyInt q : ℚ) ≤ q := by
  rw [pyInt_eq_floor h]; exact Int.floor_le q

theorem lt_pyInt_add_one {q : ℚ} (h : 0 ≤ q) : q < pyInt q + 1 := by
  rw [pyInt_eq_floor h]; exact_mod_cast Int.lt_floor_add_one q

/-! ## Text helpers

The Python code works with (already ASCII-ish) strings; we model strings
at the `List Char` level so concrete evaluations reduce in the kernel.
Python's `str.lower` agrees with `Char.toLower` on the ASCII corpus used
here, and `unicodedata.normalize("NFKC", ·)` is the identity on it. -/

/-- Characters stripped by Python `str.strip()` (ASCII whitespace plus NBSP). -/
def pyIsSpace (c : Char) : Bool :=
  c = ' ' ∨ c = '\t' ∨ c = '\n' ∨ c = '\x0d' ∨ c = '\x0b' ∨ c = '\x0c' ∨ c = '\xa0'

/-- `str.strip()` on a character list. -/
def trimList (l : List Char) : List Char :=
  ((l.dropWhile pyIsSpace).reverse.dropWhile pyIsSpace).reverse

/-- `needle` occurs as a prefix of `hay` (Python `str.startswith`). -/
def listStarts : List Char → List Char → Bool
  | [], _ => true
  | _ :: _, [] => false
  | a :: as, b :: bs => a = b ∧ listStarts as bs

/-- Python's `needle in hay` substring test. -/
def listSub (needle : List Char) : List Char → Bool
  | [] => listStarts needle []
  | c :: rest => listStarts needle (c :: rest) || listSub needle rest

/-- Substring test on strings (Python `key in text`). -/
def strSub (needle hay : String) : Bool := listSub needle.toList hay.toList

/-- Python `str.startswith` on strings. -/
def strStarts (needle hay : String) : Bool := listStarts needle.toList hay.toList

/-- Python `str.lower()` (ASCII corpus). -/
def pyLower (s : String) : String := String.mk (s.toList.map Char.toLower)

/-- Python `str.strip()`. -/
def pyStrip (s : String) : String := String.mk (trimList s.toList)

/-- `location_service.TRANSLATE`: squash NBSP and fancy dashes. -/
def translateChar (c : Char) : Char :=
  if c = '\xa0' then ' '
  else if c = '‑' ∨ c = '–' ∨ c = '—' then '-'
  else c

/-- `location_service._clean`: NFKC-normalise (identity on this corpus),
translate NBSP and dashes, strip and lower-case. -/
def clean (s : String) : String :=
  String.mk (trimList (s.toList.map translateChar) |>.map Char.toLower)

/-! ## `arrival_cache.py` -/

/-- The persisted arrival record (`Arrival` TypedDict): `lat`, `lon` in
decimal degrees and the ISO-8601 timestamp, modelled as `ℚ` UTC seconds
(`isoformat`/`fromisoformat` round-trip is the identity here). -/
structure ArrivalRecord where
  lat : ℚ
  lon : ℚ
  ts : ℚ
  deriving DecidableEq, Repr

/-- State of `local_data/last_arrival.json`: absent, unreadable (the
`except` branch of `load` treats it as a miss), or a good record. -/
inductive ArrivalFile where
  | missing : ArrivalFile
  | corrupt : ArrivalFile
  | good : ArrivalRecord → ArrivalFile
  deriving DecidableEq, Repr

/-- `arrival_cache.save`: overwrite the file with the coordinates and
timestamp (the `ts or now` default is applied by the caller). -/
def arrival_save (lat lon ts : ℚ) : ArrivalFile := .good ⟨lat, lon, ts⟩

/-- A candidate location: the dictionary shape produced by the cascade.
Optional keys of the Python dict are `Option` fields (`none` = key absent). -/
structure CandidateCore where
  lat : Option ℚ := none
  lon : Option ℚ := none
  name : Option String := none
  confidence : ℚ := 0
  reason : String := ""
  in_flight : Option Bool := none
  tfr_confirmed : Option Bool := none
  unknown : Option Bool := none
  event_summary : Option String := none
  source_display : Option String := none
  source_url : Option String := none
  deriving DecidableEq, Repr

/-- `arrival_cache.load`: return the persisted candidate unless stale.
Age is compared in seconds (`total_seconds`, not `.days`); confidence is
recomputed from the age: `max(10, 30 - int(age_days * 3))`. -/
def arrival_load (file : ArrivalFile) (now : ℚ) (max_days : ℚ) : Option CandidateCore :=
  match file with
  | .missing => none
  | .corrupt => none
  | .good d =>
    let age_seconds := now - d.ts
    if age_seconds > max_days * 86400 then none
    else
      let age_days := age_seconds / 86400
      some { lat := some d.lat, lon := some d.lon,
             name := some ("Last known (jet arrival)"),
             reason := "last_known",
             confidence := (max 10 (30 - pyInt (age_days * 3)) : ℤ) }

/-! ## `flight_service.py` -/

/-- `flight_service.calculate_confidence`: piecewise-linear age decay for
aircraft positions, `None` beyond the freshness window. -/
def calculate_confidence (age_seconds : ℚ) (is_airborne : Bool) : Option ℤ :=
  let age_minutes := age_seconds / 60
  if is_airborne then
    if age_seconds > 600 then none
    else if age_minutes ≤ 5 then some 95
    else
      let decay_progress := (age_minutes - 5) / 5
      some (pyInt (95 - decay_progress * (95 - 75)))
  else
    if age_seconds > 1200 then none
    else if age_minutes ≤ 10 then some 90
    else
      let decay_progress := (age_minutes - 10) / 10
      some (pyInt (90 - decay_progress * (90 - 70)))

/-- `flight_service.PlaneState`: the normalised snapshot shape. -/
structure PlaneState where
  callsign : String
  lat : ℚ
  lon : ℚ
  altitude : ℚ
  on_ground : Bool
  ts : ℚ
  status : String
  tracker_url : Option String := none
  confidence : Option ℚ := none
  deriving DecidableEq, Repr

/-! ## `place_aliases.py` -/

/-- One entry of the hand-curated alias table: coordinates plus display name. -/
structure Alias where
  lat : ℚ
  lon : ℚ
  name : String
  deriving DecidableEq, Repr

/-- `PLACE_ALIASES`, in source (= Python dict insertion) order; matching is
first-key-wins substring search, so the order is semantically relevant. -/
def PLACE_ALIASES : List (String × Alias) := [
  ("the white house", ⟨38.897676, -77.036529, "The White House"⟩),
  ("oval office", ⟨38.897676, -77.036529, "Oval Office, WH"⟩),
  ("roosevelt room", ⟨38.897676, -77.036529, "Roosevelt Room, WH"⟩),
  ("cabinet room", ⟨38.897676, -77.036529, "Cabinet Room, WH"⟩),
  ("east room", ⟨38.897676, -77.036529, "East Room, WH"⟩),
  ("press briefing room", ⟨38.897676, -77.036529, "James S. Brady Briefing Room, WH"⟩),
  ("south lawn", ⟨38.897676, -77.036529, "South Lawn, WH"⟩),
  ("south portico", ⟨38.897676, -77.036529, "South Portico, WH"⟩),
  ("the ellipse", ⟨38.893758, -77.035278, "The Ellipse, DC"⟩),
  ("private dining room", ⟨38.897676, -77.036529, "Private Dining Room, WH"⟩),
  ("state dining room", ⟨38.897676, -77.036529, "State Dining Room, WH"⟩),
  ("blue room", ⟨38.897676, -77.036529, "Blue Room, WH"⟩),
  ("red room", ⟨38.897676, -77.036529, "Red Room, WH"⟩),
  ("cross hall", ⟨38.897676, -77.036529, "Cross Hall, WH"⟩),
  ("diplomatic room", ⟨38.897676, -77.036529, "Diplomatic Room, WH"⟩),
  ("grand foyer", ⟨38.897676, -77.036529, "Grand Foyer, WH"⟩),
  ("north portico", ⟨38.897676, -77.036529, "North Portico, WH"⟩),
  ("situation room", ⟨38.897676, -77.036529, "Situation Room, WH"⟩),
  ("in-town pool call time", ⟨38.897676, -77.036529, "The White House"⟩),
  ("south court auditorium", ⟨38.897592, -77.038668, "South Court Auditorium, EEOB"⟩),
  ("blair house", ⟨38.8969, -77.0385, "Blair House, DC"⟩),
  ("national cathedral", ⟨38.930176, -77.070503, "Washington National Cathedral, DC"⟩),
  ("washington national cathedral", ⟨38.930176, -77.070503, "Washington National Cathedral, DC"⟩),
  ("federal reserve", ⟨38.8890, -77.0408, "Federal Reserve (Eccles Building), DC"⟩),
  ("department of justice", ⟨38.8932, -77.0250, "DOJ Robert F. Kennedy Building, DC"⟩),
  ("u.s. department of state", ⟨38.894504, -77.048475, "U.S. Department of State, DC"⟩),
  ("department of state", ⟨38.894504, -77.048475, "U.S. Department of State, DC"⟩),
  ("st. john\x27s episcopal church", ⟨38.900410, -77.036106, "St. John\x27s Church, Lafayette Square, DC"⟩),
  ("st. john\x27s church", ⟨38.900410, -77.036106, "St. John\x27s Church, Lafayette Square, DC"⟩),
  ("the people\x27s house", ⟨38.897676, -77.036529, "The White House"⟩),
  ("rose garden", ⟨38.8975, -77.0371, "Rose Garden, WH"⟩),
  ("north lawn", ⟨38.8982, -77.0355, "North Lawn, WH"⟩),
  ("u.s. naval observatory", ⟨38.9217, -77.0669, "U.S. Naval Observatory (VP Residence), DC"⟩),
  ("mount vernon", ⟨38.7102, -77.0888, "George Washington\x27s Mount Vernon, VA"⟩),
  ("camp david", ⟨39.6481, -77.4650, "Camp David, MD"⟩),
  ("joint base andrews", ⟨38.810830, -76.866940, "Joint Base Andrews, MD"⟩),
  ("morristown municipal airport", ⟨40.79935, -74.41487, "Morristown Municipal Airport, NJ"⟩),
  ("palm beach intl airport", ⟨26.68390, -80.09559, "Palm Beach Intl. Airport"⟩),
  ("mar-a-lago", ⟨26.675800, -80.036400, "Mar-a-Lago, FL"⟩),
  ("trump tower", ⟨40.762500, -73.973000, "Trump Tower, NYC"⟩),
  ("trump national golf club bedminster", ⟨40.645560, -74.639170, "Trump Nat’l Golf Club Bedminster, NJ"⟩),
  ("trump national golf club washington dc", ⟨39.053000, -77.347000, "Trump Nat’l Golf Club Washington DC, VA"⟩),
  ("trump national golf club doral", ⟨25.819550, -80.330970, "Trump National Doral, FL"⟩),
  ("trump national doral miami", ⟨25.819550, -80.330970, "Trump National Doral, FL"⟩),
  ("trump international hotel las vegas", ⟨36.129545, -115.172821, "Trump International Hotel, Las Vegas"⟩),
  ("trump international golf links", ⟨57.27393, -2.03299, "Trump International Golf Links, Aberdeen, Scotland"⟩),
  ("trump turnberry", ⟨55.3272, -4.8364, "Trump Turnberry, Scotland"⟩),
  ("trump national golf club jupiter", ⟨26.890084, -80.089967, "Trump Nat\x27l Golf Club Jupiter, FL"⟩),
  ("trump international golf club west palm beach", ⟨26.706, -80.036, "Trump International Golf Club, West Palm Beach, FL"⟩),
  ("trump international golf club", ⟨26.706, -80.036, "Trump International Golf Club, West Palm Beach, FL"⟩),
  ("60 centre st", ⟨40.713460, -74.003100, "NY County Supreme Court, 60 Centre St"⟩),
  ("wilkie d. ferguson jr. courthouse", ⟨25.774180, -80.194545, "Ferguson U.S. Courthouse, Miami"⟩),
  ("ritz-carlton abu dhabi", ⟨24.467970, 54.371600, "Ritz-Carlton Abu Dhabi"⟩),
  ("dover air force base", ⟨39.129540, -75.466490, "Dover AFB, DE"⟩)]

/-! ## `calendar_service.py`

The schedule feed itself (`_fetch_events`, a network fetch) enters the
model as a list of already-normalised events; conversion of a UTC instant
to an America/New_York wall-clock hour (`astimezone(NYC).hour`, a
`dateutil` tz-database lookup) is the `localHour` function parameter. -/

/-- A normalised schedule item as produced by `_fetch_events`. -/
structure Event where
  dtstart_utc : ℚ
  summary : String
  location : String
  deriving DecidableEq, Repr

/-- `IMPLICIT_LOCATION_SUMMARIES`. -/
def IMPLICIT_LOCATION_SUMMARIES : List String := ["in-town pool call time"]

/-- `calendar_service._has_effective_location`. -/
def has_effective_location (event : Event) : Bool :=
  event.location ≠ "" ||
    IMPLICIT_LOCATION_SUMMARIES.any (fun pattern => strSub pattern (pyStrip (pyLower event.summary)))

/-- The `_within` window test of `current_event`. -/
def within_window (now : ℚ) (event : Event) (hours : ℚ) (past : Bool) : Bool :=
  let delta := if past then now - event.dtstart_utc else event.dtstart_utc - now
  0 ≤ delta / 3600 ∧ delta / 3600 ≤ hours

/-- `calendar_service.current_event`: newest-first scan of the recent
window preferring events with an effective location, then the soonest-first
scan of the upcoming window (Python `sort` is stable; `insertionSort` on a
total `≤` key reproduces it). -/
def current_event (events : List Event) (now : ℚ) (past_hours future_hours : ℚ) :
    Option Event :=
  let recent := (events.filter (fun e => within_window now e past_hours true)).insertionSort
    (fun a b => now - a.dtstart_utc ≤ now - b.dtstart_utc)
  match recent.find? has_effective_location with
  | some ev => some ev
  | none =>
    match recent with
    | r :: _ => some r
    | [] =>
      let upcoming := (events.filter (fun e => within_window now e future_hours false)).insertionSort
        (fun a b => a.dtstart_utc - now ≤ b.dtstart_utc - now)
      match upcoming.find? has_effective_location with
      | some ev => some ev
      | none => upcoming.head?

/-- `OVERNIGHT_BASES` region keys, in dict order. -/
def OVERNIGHT_REGIONS : List String := ["dc", "fl", "nj"]

/-- Centre coordinate of `OVERNIGHT_BASES[region]`. -/
def overnight_center (region : String) : ℚ × ℚ :=
  if region = "dc" then (38.9072, -77.0369)
  else if region = "fl" then (26.6758, -80.0364)
  else (40.6456, -74.6392)

/-- `coords` entry of `OVERNIGHT_BASES[region]`. -/
def overnight_coords (region : String) : Alias :=
  if region = "dc" then ⟨38.897676, -77.036529, "The White House"⟩
  else if region = "fl" then ⟨26.6758, -80.0364, "Mar-a-Lago"⟩
  else ⟨40.645560, -74.639170, "Trump Nat\x27l Golf Club Bedminster"⟩

/-- `calendar_service._get_region`: first region whose centre is within
80 km, under the distance function `hav` (the `math`-library haversine,
abstracted). -/
def get_region (hav : ℚ → ℚ → ℚ → ℚ → ℚ) (lat lon : ℚ) : Option String :=
  OVERNIGHT_REGIONS.find? (fun region =>
    let c := overnight_center region
    hav lat lon c.1 c.2 < 80)

/-- `calendar_service._resolve_location_to_coords`: first alias key that is
a substring of the lower-cased, stripped location. -/
def resolve_location_to_coords (location : String) : Option (ℚ × ℚ) :=
  if location = "" then none
  else
    let location_lower := pyStrip (pyLower location)
    (PLACE_ALIASES.find? (fun kv => strSub kv.1 location_lower)).map
      (fun kv => (kv.2.lat, kv.2.lon))

/-- The evening-event scan of `get_overnight_base`: first event in feed
order with local hour ≥ 17, within the past 14 hours, whose location
resolves via the alias table. -/
def find_evening_coords (localHour : ℚ → ℤ) (events : List Event) (now : ℚ) :
    Option (ℚ × ℚ) :=
  events.findSome? (fun ev =>
    let hours_ago := (now - ev.dtstart_utc) / 3600
    if localHour ev.dtstart_utc ≥ 17 ∧ 0 < hours_ago ∧ hours_ago ≤ 14 then
      resolve_location_to_coords ev.location
    else none)

/-- The morning-event scan of `get_overnight_base`: first event in feed
order with local hour < 12, within the next 18 hours, whose location
resolves via the alias table. -/
def find_morning_coords (localHour : ℚ → ℤ) (events : List Event) (now : ℚ) :
    Option (ℚ × ℚ) :=
  events.findSome? (fun ev =>
    let hours_ahead := (ev.dtstart_utc - now) / 3600
    if localHour ev.dtstart_utc < 12 ∧ 0 < hours_ahead ∧ hours_ahead ≤ 18 then
      resolve_location_to_coords ev.location
    else none)

/-- `calendar_service.get_overnight_base`: during the 21:00–08:00 local
window, if the evening and morning scans classify into the same region,
return that region's base coordinates. -/
def get_overnight_base (hav : ℚ → ℚ → ℚ → ℚ → ℚ) (localHour : ℚ → ℤ)
    (events : List Event) (now : ℚ) : Option Alias :=
  let hour := localHour now
  if ¬(hour ≥ 21 ∨ hour < 8) then none
  else if events = [] then none
  else
    match find_evening_coords localHour events now with
    | none => none
    | some ec =>
      match find_morning_coords localHour events now with
      | none => none
      | some mc =>
        match get_region hav ec.1 ec.2 with
        | none => none
        | some evening_region =>
          if get_region hav mc.1 mc.2 = some evening_region then
            some (overnight_coords evening_region)
          else none

/-- A context event used for geocoding disambiguation. -/
structure CtxEvent where
  lat : ℚ
  lon : ℚ
  dt : ℚ
  deriving DecidableEq, Repr

/-- The collection loop of `get_context_events`: walk events sorted by
temporal distance, skip the target, resolve via the alias table, stop once
`min_context` coordinates are gathered. (The Python `ev is target_event`
object-identity test is modelled as structural equality.) -/
def collect_context (target : Event) (min_context : ℕ) :
    List Event → List CtxEvent → List CtxEvent
  | [], acc => acc
  | ev :: rest, acc =>
    if ev = target then collect_context target min_context rest acc
    else
      let acc2 := match resolve_location_to_coords ev.location with
        | some c => acc ++ [⟨c.1, c.2, ev.dtstart_utc⟩]
        | none => acc
      if min_context ≤ acc2.length then acc2
      else collect_context target min_context rest acc2

/-- `calendar_service.get_context_events` (with `MIN_CONTEXT_EVENTS = 2`). -/
def get_context_events (all_events : List Event) (target : Event) : List CtxEvent :=
  let sorted_events := all_events.insertionSort
    (fun a b => |a.dtstart_utc - target.dtstart_utc| ≤ |b.dtstart_utc - target.dtstart_utc|)
  collect_context target 2 sorted_events []

/-! ## `location_service.py` — geocoding disambiguation -/

/-- A geocoder result (`geopy.Location`): coordinates plus the provider's
`importance` score from the raw payload (absent ↦ `none`; the code reads it
with default `0`). Display/address fields are log-only and omitted. -/
structure GeoResult where
  latitude : ℚ
  longitude : ℚ
  importance : Option ℚ := none
  deriving DecidableEq, Repr

/-- CPython `max(l, key=k)`: first maximal element (replace only on strict
improvement), seeded with the first element. -/
def pyMaxBy {α : Type} (key : α → ℚ) (a : α) (l : List α) : α :=
  l.foldl (fun acc x => if key x > key acc then x else acc) a

/-- CPython `min(l, key=k)`: first minimal element. -/
def pyMinBy {α : Type} (key : α → ℚ) (a : α) (l : List α) : α :=
  l.foldl (fun acc x => if key x < key acc then x else acc) a

/-- `location_service._compute_centroid`. -/
def compute_centroid (coords : List (ℚ × ℚ)) : ℚ × ℚ :=
  if coords = [] then (0, 0)
  else ((coords.map Prod.fst).sum / coords.length, (coords.map Prod.snd).sum / coords.length)

/-- `location_service._is_physically_feasible`: reachable from at least one
context event at `max_speed_kmh`, with the time gap clamped below at
`MIN_TIME_GAP_H = 0.1` hours; vacuously true without context. -/
def is_physically_feasible (hav : ℚ → ℚ → ℚ → ℚ → ℚ) (result_lat result_lon : ℚ)
    (context_events : List CtxEvent) (target_dt : ℚ) (max_speed_kmh : ℚ) : Bool :=
  if context_events = [] then true
  else context_events.any (fun ctx =>
    let g := |ctx.dt - target_dt| / 3600
    let time_gap_h := if g < 1/10 then (1/10 : ℚ) else g
    hav ctx.lat ctx.lon result_lat result_lon ≤ time_gap_h * max_speed_kmh)

/-- The alert dictionaries returned by `_disambiguate_results`. -/
inductive Alert where
  | suspicious (distance_km : ℚ) (centroid : ℚ × ℚ) : Alert
  | all_infeasible (results_count : ℕ) : Alert
  deriving DecidableEq, Repr

/-- The `type` key of an alert dictionary. -/
def Alert.kind : Alert → String
  | .suspicious _ _ => "suspicious_distance"
  | .all_infeasible _ => "all_infeasible"

/-- `location_service._disambiguate_results`: the hybrid 3-layer
disambiguation (feasibility filter, centroid ranking, suspicious-distance
flag), with the single-result and no-context early exits of the source. -/
def disambiguate_results (hav : ℚ → ℚ → ℚ → ℚ → ℚ) (results : List GeoResult)
    (context_events : List CtxEvent) (target_dt : ℚ) : Option GeoResult × Option Alert :=
  match results with
  | [] => (none, none)
  | [result] =>
    if context_events ≠ [] then
      let centroid := compute_centroid (context_events.map (fun ev => (ev.lat, ev.lon)))
      let distance_km := hav centroid.1 centroid.2 result.latitude result.longitude
      if distance_km > 500 then (some result, some (.suspicious distance_km centroid))
      else (some result, none)
    else (some result, none)
  | r0 :: r1 :: rest =>
    let results := r0 :: r1 :: rest
    if context_events = [] then
      (some (pyMaxBy (fun r => r.importance.getD 0) r0 (r1 :: rest)), none)
    else
      let feasible_results := results.filter (fun r =>
        is_physically_feasible hav r.latitude r.longitude context_events target_dt 800)
      match feasible_results with
      | [] =>
        (some (pyMaxBy (fun r => r.importance.getD 0) r0 (r1 :: rest)),
         some (.all_infeasible results.length))
      | f :: fs =>
        let centroid := compute_centroid (context_events.map (fun ev => (ev.lat, ev.lon)))
        let key := fun (r : GeoResult) => hav centroid.1 centroid.2 r.latitude r.longitude
        let best := pyMinBy key f fs
        let distance_km := key best
        if distance_km > 500 then (some best, some (.suspicious distance_km centroid))
        else (some best, none)

/-- `location_service._should_skip_geocode` over `SKIP_LOCATIONS`. -/
def should_skip_geocode (location : String) : Bool :=
  clean location = "stakeout location" ∨ clean location = "the sticks - the white house"

/-- `location_service._smart_geocode`: skip list, US-restricted search
(multi-result when context is available, with 3-layer disambiguation),
then international fallback. The two Nominatim calls are the `Except`
behaviours `geoUS` (ranked result list; single-result mode takes its head)
and `geoIntl`; every raised error is caught here, as in the source. The
cross-cycle result cache is not modelled (one cycle = one query). -/
def smart_geocode (geoUS : String → Except String (List GeoResult))
    (geoIntl : String → Except String (Option GeoResult))
    (hav : ℚ → ℚ → ℚ → ℚ → ℚ)
    (query : String) (context_events : List CtxEvent) (target_dt : ℚ) :
    Option GeoResult :=
  if should_skip_geocode query then none
  else
    let use_disambiguation := context_events ≠ []
    let intl_fallback : Option GeoResult :=
      match geoIntl query with
      | .ok r => r
      | .error _ => none
    match geoUS query with
    | .error _ => intl_fallback
    | .ok us_list =>
      let results := if use_disambiguation then us_list else us_list.take 1
      match results with
      | [] => intl_fallback
      | r0 :: _ =>
        if use_disambiguation ∧ 1 < results.length then
          (disambiguate_results hav results context_events target_dt).1
        else some r0

/-! ## `location_service.py` — TFR coordinate parsing

`COORD_RE = ([NS]\d+\.\d+),\s*([EW\-]?\d+\.\d+)`, re-implemented as a
left-to-right scanner. Greedy `\d+` runs followed by a non-digit are
maximal digit runs, so no backtracking is needed. -/

/-- Numeric value of a digit run. -/
def digitsVal (l : List Char) : ℕ :=
  l.foldl (fun acc c => acc * 10 + (c.toNat - 48)) 0

/-- Python `float` of the digit runs either side of the decimal point. -/
def decVal (p : List Char × List Char) : ℚ :=
  (digitsVal p.1 : ℚ) + (digitsVal p.2 : ℚ) / (10 : ℚ) ^ p.2.length

/-- Parse `\d+\.\d+`; returns the integer digits, fraction digits and the
rest of the input (the numeric value is taken afterwards by `decVal`, so
this stage stays character-level). -/
def parseDecimal (l : List Char) : Option ((List Char × List Char) × List Char) :=
  let ds := l.takeWhile Char.isDigit
  let rest := l.drop ds.length
  if ds = [] then none
  else
    match rest with
    | '.' :: r2 =>
      let fs := r2.takeWhile Char.isDigit
      if fs = [] then none
      else some ((ds, fs), r2.drop fs.length)
    | _ => none

/-- Regex `\s`: ASCII whitespace classes. -/
def regexSpace (c : Char) : Bool :=
  c = ' ' ∨ c = '\t' ∨ c = '\n' ∨ c = '\x0d' ∨ c = '\x0b' ∨ c = '\x0c'

/-- Try to match `COORD_RE` at the head of the list; returns the latitude
direction, latitude digits, optional longitude prefix char and longitude
digits. -/
def matchCoordAt (l : List Char) :
    Option (Char × (List Char × List Char) × Option Char × (List Char × List Char)) :=
  match l with
  | [] => none
  | c :: rest =>
    if c = 'N' ∨ c = 'S' then
      match parseDecimal rest with
      | none => none
      | some (latd, r1) =>
        match r1 with
        | ',' :: r2 =>
          let r3 := r2.dropWhile regexSpace
          match r3 with
          | [] => none
          | d :: r4 =>
            if d = 'E' ∨ d = 'W' ∨ d = '-' then
              match parseDecimal r4 with
              | some (lond, _) => some (c, latd, some d, lond)
              | none => none
            else
              match parseDecimal r3 with
              | some (lond, _) => some (c, latd, none, lond)
              | none => none
        | _ => none
    else none

/-- `re.search`: leftmost match of `COORD_RE`. -/
def coordSearch : List Char →
    Option (Char × (List Char × List Char) × Option Char × (List Char × List Char))
  | [] => none
  | c :: rest =>
    match matchCoordAt (c :: rest) with
    | some m => some m
    | none => coordSearch rest

/-- `location_service.parse_tfr_coordinates`: parse and range-validate the
first coordinate pair in a TFR description. -/
def parse_tfr_coordinates (description : String) : Option (ℚ × ℚ) :=
  match coordSearch description.toList with
  | none => none
  | some (lat_dir, lat_digits, lon_dir, lon_digits) =>
    let lat_abs := decVal lat_digits
    let lon_abs := decVal lon_digits
    let lat_value := if lat_dir = 'S' then -lat_abs else lat_abs
    let lon_value :=
      match lon_dir with
      | some d => if d = 'W' then -lon_abs else if d = 'E' then lon_abs else -lon_abs
      | none => lon_abs
    if ¬(-90 ≤ lat_value ∧ lat_value ≤ 90) then none
    else if ¬(-180 ≤ lon_value ∧ lon_value ≤ 180) then none
    else some (lat_value, lon_value)

/-! ## `location_service.py` — the fusion cascade -/

/-- An active VIP/SECURITY TFR record as returned by `_vip_json`. -/
structure TfrRec where
  description : String := ""
  shortDesc : Option String := none
  deriving DecidableEq, Repr

/-- A GDELT dateline hit (`gdelt_service.Coords`). -/
structure NewsCoord where
  lat : ℚ
  lon : ℚ
  name : String
  deriving DecidableEq, Repr

/-- The cascade winner: a candidate dictionary, plus the optional
`last_known` side-note attached only to the terminal `unknown` candidate. -/
structure Candidate extends CandidateCore where
  last_known : Option CandidateCore := none
  deriving DecidableEq, Repr

/-- `location_service._age_human`. -/
def age_human (age_h : ℚ) : String :=
  if age_h < 1 then "just now"
  else if age_h < 24 then toString (pyInt age_h) ++ " h ago"
  else toString (pyRound (age_h / 24)) ++ " d ago"

/-- `location_service._stamp`: attach provenance fields. -/
def stamp (coords : CandidateCore) (age_h : Option ℚ) (source : String)
    (url : Option String) : CandidateCore :=
  let c := { coords with source_display := some (match age_h with
    | some a => source ++ ", " ++ age_human a
    | none => source) }
  match url with
  | some u => if u ≠ "" then { c with source_url := some u } else c
  | none => c

/-- `location_service.select_highest_confidence`: CPython `max` by
confidence, first candidate winning ties. -/
def select_highest_confidence (candidates : List CandidateCore) : Option CandidateCore :=
  match candidates with
  | [] => none
  | c :: rest => some (pyMaxBy (fun x => x.confidence) c rest)

def FACTBASE_URL : String := "https://rollcall.com/factbase/trump/topic/calendar/"

def TFR_JSON_URL : String := "https://tfr.faa.gov/tfr3/export/json"

/-- `TFR_ENABLED` — the FAA feed is disabled in the source (2025-12). -/
def TFR_ENABLED : Bool := false

/-- `CAL_BASE_CONF - (CAL_BASE_CONF - CAL_MIN_CONF) * min(age, 72) / 72`:
the schedule-derived confidence decay. -/
def cal_conf (age_cal : ℚ) : ℚ := 70 - (70 - 30) * min age_cal 72 / 72

/-- Environment of one resolution cycle: the library functions the cascade
calls (haversine, timezone hour) and the geocoder behaviours. -/
structure CycleParams where
  hav : ℚ → ℚ → ℚ → ℚ → ℚ
  localHour : ℚ → ℤ
  geoUS : String → Except String (List GeoResult)
  geoIntl : String → Except String (Option GeoResult)

/-- Already-fetched feed values entering one resolution cycle. -/
structure CycleInput where
  plane : Option PlaneState
  events : List Event
  vip_recs : List TfrRec
  news : Option NewsCoord
  arrival_file : ArrivalFile
  now : ℚ

/-- `_plane_newer_than_event`: vacuously true when either side is absent. -/
def plane_newer_than_event (plane : Option PlaneState) (event : Option Event) : Bool :=
  match plane, event with
  | some p, some e => p.ts > e.dtstart_utc
  | _, _ => true

/-- The TFR-proximity loop of the grounded branch: some active record with
parseable coordinates within 55 km. -/
def near_tfr_check (hav : ℚ → ℚ → ℚ → ℚ → ℚ) (p : PlaneState)
    (vip_recs : List TfrRec) : Bool :=
  vip_recs.any (fun rec =>
    match parse_tfr_coordinates rec.description with
    | some c => hav p.lat p.lon c.1 c.2 < 55
    | none => false)

/-- The airborne winner (`reason = "plane_air"`). -/
def airborne_candidate (p : PlaneState) : CandidateCore :=
  stamp { lat := some p.lat, lon := some p.lon,
          name := some ("In flight (" ++ p.callsign ++ ")"),
          in_flight := some true,
          confidence := p.confidence.getD 95,
          reason := "plane_air" }
    (some 0) ("ADS‑B (airborne)") p.tracker_url

/-- The grounded winner (`reason = "plane_tfr"` near an active TFR with the
+10 bonus capped at 95, else `"plane_ground"`). -/
def grounded_candidate (hav : ℚ → ℚ → ℚ → ℚ → ℚ) (p : PlaneState)
    (vip_recs : List TfrRec) (now : ℚ) : CandidateCore :=
  let near_tfr := near_tfr_check hav p vip_recs
  let base_confidence := p.confidence.getD 90
  let confidence := if near_tfr then min 95 (base_confidence + 10) else base_confidence
  stamp { lat := some p.lat, lon := some p.lon,
          name := some (p.callsign ++ " parked"),
          tfr_confirmed := some near_tfr,
          confidence := confidence,
          reason := if near_tfr then "plane_tfr" else "plane_ground" }
    (some ((now - p.ts) / 3600)) ("ADS‑B (grounded)") p.tracker_url

/-- The reason tag chosen for an overnight-base winner from its name. -/
def overnight_reason (name : String) : String :=
  if strSub ("White House") name then "overnight_dc"
  else if strSub ("Mar-a-Lago") name then "overnight_fl"
  else "overnight_nj"

/-- The overnight-inference winner (confidence 58). -/
def overnight_candidate (base : Alias) : CandidateCore :=
  stamp { lat := some base.lat, lon := some base.lon, name := some base.name,
          confidence := 58, reason := overnight_reason base.name }
    none ("Overnight inference (evening→morning pattern)") (some FACTBASE_URL)

/-- Step 2 of the cascade: the schedule-derived candidate (alias on
location, alias on summary, geocode with disambiguation, first hit wins)
and the low-confidence `last_known_calendar` side value. -/
def calendar_candidate (P : CycleParams) (events : List Event) (now : ℚ)
    (event : Option Event) : Option CandidateCore × Option CandidateCore :=
  match event with
  | none => (none, none)
  | some ev =>
    let raw_location := pyStrip ev.location
    let raw_summary := ev.summary
    let desc := clean raw_location
    let summ := clean raw_summary
    let age_cal := (now - ev.dtstart_utc) / 3600
    if strSub ("no public events scheduled") summ then (none, none)
    else
      let conf := cal_conf age_cal
      let mk := fun (la lo : ℚ) (nm : String) (reason source : String) =>
        stamp { lat := some la, lon := some lo, name := some nm,
                confidence := conf, reason := reason,
                event_summary := some raw_summary }
          (some age_cal) source (some FACTBASE_URL)
      match PLACE_ALIASES.find? (fun kv => strSub kv.1 desc) with
      | some kv =>
        let c := mk kv.2.lat kv.2.lon kv.2.name ("calendar_alias") ("Factba.se schedule")
        (some c, if conf < 30 then some c else none)
      | none =>
        match PLACE_ALIASES.find? (fun kv => strSub kv.1 summ) with
        | some kv =>
          let c := mk kv.2.lat kv.2.lon kv.2.name ("calendar_summary") ("Factba.se schedule")
          (some c, if conf < 30 then some c else none)
        | none =>
          if desc ≠ "" then
            match smart_geocode P.geoUS P.geoIntl P.hav desc
                (get_context_events events ev) ev.dtstart_utc with
            | some g =>
              let c := mk g.latitude g.longitude raw_location
                ("calendar_geocode") ("Factba.se schedule (geocoded)")
              (some c, if conf < 30 then some c else none)
            | none => (none, none)
          else (none, none)

/-- Step 3 of the cascade: the VIP/SECURITY TFR candidate (confidence 40)
from the newest active record, if its coordinates parse. -/
def tfr_candidate (vip_recs : List TfrRec) : Option CandidateCore :=
  match vip_recs with
  | [] => none
  | best :: _ =>
    match parse_tfr_coordinates best.description with
    | none => none
    | some c =>
      some (stamp { lat := some c.1, lon := some c.2,
                    name := some (best.shortDesc.getD ("VIP‑TFR")),
                    confidence := 40, reason := "tfr_json" }
        none ("FAA VIP‑TFR JSON") (some TFR_JSON_URL))

/-- The newswire winner (fixed confidence 35). -/
def news_candidate (n : NewsCoord) : CandidateCore :=
  stamp { lat := some n.lat, lon := some n.lon, name := some n.name,
          confidence := 35, reason := "newswire" }
    none ("GDELT dateline") (some "https://www.gdeltproject.org/")

/-- The terminal `unknown` candidate, optionally carrying the low-confidence
calendar guess computed during the cycle. -/
def unknown_candidate (last_known_calendar : Option CandidateCore) : Candidate :=
  { unknown := some true, confidence := 0, reason := "unknown",
    last_known := last_known_calendar }

/-- The cascade after the two flight-feed branches: overnight inference,
schedule vs TFR by confidence, newswire, arrival cache, terminal unknown. -/
def cascade_after_plane (P : CycleParams) (inp : CycleInput) (event : Option Event) :
    Candidate :=
  match get_overnight_base P.hav P.localHour inp.events inp.now with
  | some base => { toCandidateCore := overnight_candidate base }
  | none =>
    let cc := calendar_candidate P inp.events inp.now event
    let coords_tfr := tfr_candidate inp.vip_recs
    let candidates := ([cc.1, coords_tfr]).filterMap id
    match select_highest_confidence candidates with
    | some best => { toCandidateCore := best }
    | none =>
      match inp.news with
      | some n => { toCandidateCore := news_candidate n }
      | none =>
        match arrival_load inp.arrival_file inp.now 7 with
        | some last =>
          { toCandidateCore := stamp last none ("Last aircraft arrival") none }
        | none => unknown_candidate cc.2

/-- `location_service.current_coords`: one resolution cycle over
already-fetched feed values. Returns the winning candidate and the
resulting arrival-cache file (the grounded branch persists its position
as a side effect). Trace logging and Discord event emission are external
side effects without influence on the returned value and are omitted. -/
def current_coords (P : CycleParams) (inp : CycleInput) : Candidate × ArrivalFile :=
  let event := current_event inp.events inp.now 36 24
  match inp.plane with
  | some p =>
    if p.status = "airborne" then
      ({ toCandidateCore := airborne_candidate p }, inp.arrival_file)
    else if p.status = "grounded" ∧ plane_newer_than_event inp.plane event then
      ({ toCandidateCore := grounded_candidate P.hav p inp.vip_recs inp.now },
       arrival_save p.lat p.lon inp.now)
    else (cascade_after_plane P inp event, inp.arrival_file)
  | none => (cascade_after_plane P inp event, inp.arrival_file)

/-! ## `gdelt_service.py`

In `get_latest_location` only each probe's fetch (`cli.get`,
`raise_for_status`, `resp.json()`) sits inside a `try/except Exception`;
the payload-shape extraction runs outside it, with only `KeyError` and
`ValueError` caught around the per-item coordinate conversion. A parsed
payload is modelled as a JSON value, and the dynamic operations the
extraction performs carry Python semantics, raising on shape mismatches. -/

/-- A parsed JSON value, as `resp.json()` produces it. -/
inductive Json where
  | null
  | bool (b : Bool)
  | num (q : ℚ)
  | str (s : String)
  | arr (l : List Json)
  | obj (l : List (String × Json))

/-- Exceptions the extraction can raise; `keyError` and `valueError` are
the two its inner `except (KeyError, ValueError)` catches. -/
inductive PyErr where
  | keyError
  | valueError
  | attributeError
  | typeError
  deriving DecidableEq, Repr

/-- Exception class name, as the raised error surfaces to the caller. -/
def PyErr.name : PyErr → String
  | .keyError => "KeyError"
  | .valueError => "ValueError"
  | .attributeError => "AttributeError"
  | .typeError => "TypeError"

/-- Python `j.get(key, default)`: only dicts have `.get`; any other parsed
value raises `AttributeError`. -/
def jGetD (j : Json) (key : String) (default : Json) : Except PyErr Json :=
  match j with
  | .obj l => .ok (((l.find? (fun kv => kv.1 = key)).map Prod.snd).getD default)
  | _ => .error .attributeError

/-- Python `j[key]` with a string key: dict lookup (`KeyError` when
missing); a string key into a list, string, number, boolean or null raises
`TypeError`. -/
def jIndex (j : Json) (key : String) : Except PyErr Json :=
  match j with
  | .obj l =>
    match l.find? (fun kv => kv.1 = key) with
    | some kv => .ok kv.2
    | none => .error .keyError
  | _ => .error .typeError

/-- Python truthiness of a parsed JSON value (`if articles:`). -/
def jTruthy : Json → Bool
  | .null => false
  | .bool b => b
  | .num q => q ≠ 0
  | .str s => s ≠ ""
  | .arr l => !l.isEmpty
  | .obj l => !l.isEmpty

/-- Python `for x in j`: lists yield their items, strings their characters
(as one-character strings), dicts their keys; numbers, booleans and null
are not iterable (`TypeError`). -/
def jIter : Json → Except PyErr (List Json)
  | .arr l => .ok l
  | .str s => .ok (s.toList.map (fun c => Json.str (String.mk [c])))
  | .obj l => .ok (l.map (fun kv => Json.str kv.1))
  | _ => .error .typeError

/-- Python `float(x)` on a parsed JSON value: numbers and booleans
convert, `float` of a string returns a value or raises `ValueError` (the
string grammar is the abstracted `pyFloatStr` parameter), and `None`,
lists and dicts raise `TypeError`. -/
def jFloat (pyFloatStr : String → Option ℚ) : Json → Except PyErr ℚ
  | .num q => .ok q
  | .bool b => .ok (if b then 1 else 0)
  | .str s =>
    match pyFloatStr s with
    | some q => .ok q
    | none => .error .valueError
  | _ => .error .typeError

/-- Python `s.title()` on the character list (letters after a letter are
lowered, letters after a non-letter are raised). -/
def pyTitleGo : Bool → List Char → List Char
  | _, [] => []
  | prevAlpha, c :: cs =>
    (if c.isAlpha then (if prevAlpha then c.toLower else c.toUpper) else c) ::
      pyTitleGo c.isAlpha cs

/-- Python `s.title()`. -/
def pyTitle (s : String) : String := String.mk (pyTitleGo false s.toList)

/-- Python `j.title()`: only strings have `.title`. -/
def jTitle : Json → Except PyErr String
  | .str s => .ok (pyTitle s)
  | _ => .error .attributeError

/-- The body of the inner `try`: `lat = float(loc["lat"])`,
`lon = float(loc["lon"])`, `place = loc.get("location", "").title()`,
building the returned dateline dict. -/
def extract_coords (pyFloatStr : String → Option ℚ) (loc : Json) :
    Except PyErr NewsCoord :=
  match jIndex loc ("lat") with
  | .error e => .error e
  | .ok latJ =>
    match jFloat pyFloatStr latJ with
    | .error e => .error e
    | .ok lat =>
      match jIndex loc ("lon") with
      | .error e => .error e
      | .ok lonJ =>
        match jFloat pyFloatStr lonJ with
        | .error e => .error e
        | .ok lon =>
          match jGetD loc ("location") (.str ("")) with
          | .error e => .error e
          | .ok locJ =>
            match jTitle locJ with
            | .error e => .error e
            | .ok place => .ok ⟨lat, lon, "News dateline: " ++ place⟩

/-- One `loc` of the spatial loop: `KeyError` and `ValueError` are caught
(`continue`, i.e. no hit); `TypeError` and `AttributeError` raise. -/
def spatial_item (pyFloatStr : String → Option ℚ) (loc : Json) :
    Except PyErr (Option NewsCoord) :=
  match extract_coords pyFloatStr loc with
  | .ok c => .ok (some c)
  | .error .keyError => .ok none
  | .error .valueError => .ok none
  | .error e => .error e

/-- The inner loop `for loc in art.get("spatial", [])`: first hit returns. -/
def spatial_loop (pyFloatStr : String → Option ℚ) :
    List Json → Except PyErr (Option NewsCoord)
  | [] => .ok none
  | loc :: rest =>
    match spatial_item pyFloatStr loc with
    | .error e => .error e
    | .ok (some c) => .ok (some c)
    | .ok none => spatial_loop pyFloatStr rest

/-- The outer loop `for art in articles`: `art.get("spatial", [])` (which
raises on a non-dict `art`), iterate it, first hit returns. -/
def article_loop (pyFloatStr : String → Option ℚ) :
    List Json → Except PyErr (Option NewsCoord)
  | [] => .ok none
  | art :: rest =>
    match jGetD art ("spatial") (.arr []) with
    | .error e => .error e
    | .ok spatialJ =>
      match jIter spatialJ with
      | .error e => .error e
      | .ok locs =>
        match spatial_loop pyFloatStr locs with
        | .error e => .error e
        | .ok (some c) => .ok (some c)
        | .ok none => article_loop pyFloatStr rest

/-- `gdelt_service.get_latest_location` after the fetches: each probe's
fetch outcome is a behaviour (`String` errors are the exceptions its
`try/except Exception` catches: network failure, non-success status,
JSON-parse failure). A narrow probe that fetched successfully is final —
`data.get("articles", [])`, truthiness test, extraction, no fallback; a
narrow fetch error falls back to the 7-day probe, whose own fetch error
yields `None` but whose extraction runs unguarded as well. -/
def get_latest_location (pyFloatStr : String → Option ℚ)
    (narrow fallback : Except String Json) : Except PyErr (Option NewsCoord) :=
  match narrow with
  | .ok data =>
    (match jGetD data ("articles") (.arr []) with
     | .error e => .error e
     | .ok articles =>
       if jTruthy articles then
         match jIter articles with
         | .error e => .error e
         | .ok arts => article_loop pyFloatStr arts
       else .ok none)
  | .error _ =>
    match fallback with
    | .error _ => .ok none
    | .ok data =>
      match jGetD data ("articles") (.arr []) with
      | .error e => .error e
      | .ok articles =>
        match jIter articles with
        | .error e => .error e
        | .ok arts => article_loop pyFloatStr arts

/-! ## Feed adapters as `Except` behaviours (error-handling layer) -/

/-- Raw behaviours of the network feeds in one cycle: either a value or a
raised fetch error (timeout, non-success status, malformed-JSON body). The
news feed appears as its two probes' fetch outcomes, since their parsed
payloads are consumed by `get_latest_location`'s unguarded extraction. -/
structure FeedBehaviors where
  opensky : Except String (Option PlaneState)
  adsbfi : Except String (Option PlaneState)
  calendar : Except String (List Event)
  vip : Except String (List TfrRec)
  newsNarrow : Except String Json
  newsFallback : Except String Json

/-- `flight_service.get_plane_state`: OpenSky first, adsb.fi fallback, both
wrapped in `try/except`; both silent (or erroring) yields no state. -/
def get_plane_state_model (opensky adsbfi : Except String (Option PlaneState)) :
    Option PlaneState :=
  match opensky with
  | .ok (some s) => some s
  | _ =>
    match adsbfi with
    | .ok (some s) => some s
    | _ => none

/-- `location_service._vip_json`: empty when `TFR_ENABLED` is false; any
network/JSON error is caught and yields the empty list. -/
def vip_json_model (enabled : Bool) (vip : Except String (List TfrRec)) : List TfrRec :=
  if enabled then
    match vip with
    | .ok l => l
    | .error _ => []
  else []

/-- Steps 2–5 of the cascade at the fallible-feed level: the newswire
probe is awaited only when reached (`news_coord = await
get_latest_location()` at step 4), and an exception from its extraction
propagates (`current_coords` has no handler around it). -/
def run_cascade (P : CycleParams) (pyFloatStr : String → Option ℚ)
    (newsNarrow newsFallback : Except String Json)
    (events : List Event) (vip_recs : List TfrRec) (file : ArrivalFile) (now : ℚ)
    (event : Option Event) : Except String (Candidate × ArrivalFile) :=
  match get_overnight_base P.hav P.localHour events now with
  | some base => .ok ({ toCandidateCore := overnight_candidate base }, file)
  | none =>
    let cc := calendar_candidate P events now event
    let coords_tfr := tfr_candidate vip_recs
    match select_highest_confidence (([cc.1, coords_tfr]).filterMap id) with
    | some best => .ok ({ toCandidateCore := best }, file)
    | none =>
      match get_latest_location pyFloatStr newsNarrow newsFallback with
      | .error pe => .error (pe.name)
      | .ok news =>
        match news with
        | some n => .ok ({ toCandidateCore := news_candidate n }, file)
        | none =>
          match arrival_load file now 7 with
          | some last =>
            .ok ({ toCandidateCore := stamp last none ("Last aircraft arrival") none },
              file)
          | none => .ok (unknown_candidate cc.2, file)

/-- The full `current_coords` call including feed fetches, in source
order: the calendar feed (`calendar_service._fetch_events`) raises on
network failure, non-success status (`raise_for_status`) and malformed
payload, and no caller on the `current_coords` path catches it, so a
calendar behaviour `.error e` propagates; the flight branches run next,
and the remaining cascade — including the lazily-awaited, partly-unguarded
newswire probe — is `run_cascade`. -/
def run_cycle (P : CycleParams) (pyFloatStr : String → Option ℚ)
    (B : FeedBehaviors) (file : ArrivalFile) (now : ℚ) :
    Except String (Candidate × ArrivalFile) :=
  match B.calendar with
  | .error e => .error e
  | .ok events =>
    let plane := get_plane_state_model B.opensky B.adsbfi
    let vip_recs := vip_json_model TFR_ENABLED B.vip
    let event := current_event events now 36 24
    match plane with
    | some p =>
      if p.status = "airborne" then
        .ok ({ toCandidateCore := airborne_candidate p }, file)
      else if p.status = "grounded" ∧ plane_newer_than_event plane event then
        .ok ({ toCandidateCore := grounded_candidate P.hav p vip_recs now },
          arrival_save p.lat p.lon now)
      else
        run_cascade P pyFloatStr B.newsNarrow B.newsFallback events vip_recs file now
          event
    | none =>
      run_cascade P pyFloatStr B.newsNarrow B.newsFallback events vip_recs file now
        event

/-! ## Helper lemmas -/

theorem pyInt_le_of_le {q : ℚ} {n : ℤ} (h0 : 0 ≤ q) (h : q ≤ (n : ℚ)) : pyInt q ≤ n := by
  rw [pyInt_eq_floor h0]
  exact_mod_cast (Int.floor_le q).trans h

theorem le_pyInt_of_le {q : ℚ} {n : ℤ} (h0 : 0 ≤ q) (h : (n : ℚ) ≤ q) : n ≤ pyInt q := by
  rw [pyInt_eq_floor h0]
  exact Int.le_floor.mpr h

theorem pyInt_intCast (n : ℤ) : pyInt (n : ℚ) = n := by
  unfold pyInt
  split
  · exact Int.floor_intCast n
  · exact Int.ceil_intCast n

/-- The airborne decay branch in closed form. -/
theorem calculate_confidence_air_decay {a : ℚ} (h1 : ¬ a > 600) (h2 : ¬ a / 60 ≤ 5) :
    calculate_confidence a true = some (pyInt (95 - (a / 60 - 5) / 5 * (95 - 75))) := by
  simp only [calculate_confidence, if_neg h1, if_neg h2, if_pos rfl, if_true]

/-- The grounded decay branch in closed form. -/
theorem calculate_confidence_ground_decay {a : ℚ} (h1 : ¬ a > 1200) (h2 : ¬ a / 60 ≤ 10) :
    calculate_confidence a false = some (pyInt (90 - (a / 60 - 10) / 10 * (90 - 70))) := by
  simp only [calculate_confidence, Bool.false_eq_true, if_false, if_neg h1, if_neg h2]

/-! ## Claim theorems -/

/-- **C9**: after `save(lat, lon, t)`, a `load()` whose elapsed time is under
the 7-day retention window returns the same `lat` and `lon`, with the
confidence recomputed from the elapsed time; an age of exactly the cutoff
minus one second is accepted; an age of the cutoff plus any positive
duration yields `None` (the comparison is in seconds). -/
theorem C9_arrival_roundtrip (lat lon t now : ℚ) :
    (now - t < 7 * 86400 →
      arrival_load (arrival_save lat lon t) now 7 =
        some { lat := some lat, lon := some lon,
               name := some ("Last known (jet arrival)"),
               reason := "last_known",
               confidence := ((max 10 (30 - pyInt ((now - t) / 86400 * 3)) : ℤ) : ℚ) }) ∧
    (now - t = 7 * 86400 - 1 →
      (arrival_load (arrival_save lat lon t) now 7).isSome = true) ∧
    (∀ ε : ℚ, 0 < ε → now - t = 7 * 86400 + ε →
      arrival_load (arrival_save lat lon t) now 7 = none) := by
  refine ⟨fun hfresh => ?_, fun hedge => ?_, fun ε hε hstale => ?_⟩
  · simp only [arrival_save, arrival_load,
      if_neg (by linarith : ¬ (now - t > (7:ℚ) * 86400))]
  · simp only [arrival_save, arrival_load,
      if_neg (by linarith : ¬ (now - t > (7:ℚ) * 86400)), Option.isSome_some]
  · simp only [arrival_save, arrival_load,
      if_pos (by linarith : now - t > (7:ℚ) * 86400)]

/-- Witness for C9 at `lat = 10`, `lon = 20`, `t = 0`, `now = 604799`. -/
theorem C9_arrival_roundtrip_witness :
    (arrival_load (arrival_save 10 20 0) 604799 7).isSome = true :=
  (C9_arrival_roundtrip 10 20 0 604799).2.1 (by norm_num)

/-- **C6**: each confidence-decay function is monotonically non-increasing in
age and bounded. Airborne: 95 up to 5 min, decaying to 75 at 10 min, `none`
beyond; grounded: 90 up to 10 min, decaying to 70 at 20 min, `none` beyond;
arrival cache: 30 at age 0 decaying 3 points per day with floor 10,
rejected beyond 7 days; schedule: 70 decaying linearly to a floor of 30
over 72 h, never rejected by age. -/
theorem C6_decay_model (a b : ℚ) (ha : 0 ≤ a) (hab : a ≤ b) :
    (a ≤ 300 → calculate_confidence a true = some 95) ∧
    (calculate_confidence 600 true = some 75) ∧
    (600 < a → calculate_confidence a true = none) ∧
    (a ≤ 600 → ∃ v, calculate_confidence a true = some v ∧ 75 ≤ v ∧ v ≤ 95) ∧
    (∀ vb, calculate_confidence b true = some vb →
      ∃ va, calculate_confidence a true = some va ∧ vb ≤ va) ∧
    (a ≤ 600 → calculate_confidence a false = some 90) ∧
    (calculate_confidence 1200 false = some 70) ∧
    (1200 < a → calculate_confidence a false = none) ∧
    (a ≤ 1200 → ∃ v, calculate_confidence a false = some v ∧ 70 ≤ v ∧ v ≤ 90) ∧
    (∀ vb, calculate_confidence b false = some vb →
      ∃ va, calculate_confidence a false = some va ∧ vb ≤ va) ∧
    (∀ lat lon : ℚ, 604800 < a → arrival_load (.good ⟨lat, lon, 0⟩) a 7 = none) ∧
    (∀ lat lon : ℚ, a ≤ 604800 → ∃ c, arrival_load (.good ⟨lat, lon, 0⟩) a 7 = some c ∧
      c.confidence = ((max 10 (30 - pyInt (a / 86400 * 3)) : ℤ) : ℚ) ∧
      10 ≤ c.confidence ∧ c.confidence ≤ 30) ∧
    (∀ lat lon : ℚ, ∃ c, arrival_load (.good ⟨lat, lon, 0⟩) 0 7 = some c ∧
      c.confidence = 30) ∧
    (∀ lat lon : ℚ, ∀ ca cb, arrival_load (.good ⟨lat, lon, 0⟩) a 7 = some ca →
      arrival_load (.good ⟨lat, lon, 0⟩) b 7 = some cb → cb.confidence ≤ ca.confidence) ∧
    (cal_conf 0 = 70) ∧ (cal_conf b ≤ cal_conf a) ∧ (30 ≤ cal_conf a) ∧
    (cal_conf a ≤ 70) ∧ (72 ≤ a → cal_conf a = 30) := by
  have hb : 0 ≤ b := le_trans ha hab
  have air_eq : ∀ x : ℚ, ¬ x > 600 → ¬ x / 60 ≤ 5 →
      calculate_confidence x true = some (pyInt (95 - (x - 300) / 15)) := by
    intro x h1 h2
    rw [calculate_confidence_air_decay h1 h2]
    congr 2
    ring
  have ground_eq : ∀ x : ℚ, ¬ x > 1200 → ¬ x / 60 ≤ 10 →
      calculate_confidence x false = some (pyInt (90 - (x - 600) / 30)) := by
    intro x h1 h2
    rw [calculate_confidence_ground_decay h1 h2]
    congr 2
    ring
  have air_bounds : ∀ x : ℚ, 300 < x → x ≤ 600 →
      75 ≤ pyInt (95 - (x - 300) / 15) ∧ pyInt (95 - (x - 300) / 15) ≤ 95 := by
    intro x hx1 hx2
    have h0 : (0 : ℚ) ≤ 95 - (x - 300) / 15 := by linarith
    constructor
    · exact le_pyInt_of_le h0 (by push_cast; linarith)
    · exact pyInt_le_of_le h0 (by push_cast; linarith)
  have ground_bounds : ∀ x : ℚ, 600 < x → x ≤ 1200 →
      70 ≤ pyInt (90 - (x - 600) / 30) ∧ pyInt (90 - (x - 600) / 30) ≤ 90 := by
    intro x hx1 hx2
    have h0 : (0 : ℚ) ≤ 90 - (x - 600) / 30 := by linarith
    constructor
    · exact le_pyInt_of_le h0 (by push_cast; linarith)
    · exact pyInt_le_of_le h0 (by push_cast; linarith)
  have air_some : ∀ x : ℚ, 0 ≤ x → x ≤ 600 →
      ∃ v, calculate_confidence x true = some v ∧ 75 ≤ v ∧ v ≤ 95 := by
    intro x hx0 hx600
    by_cases hx5 : x / 60 ≤ 5
    · exact ⟨95, by simp only [calculate_confidence, if_neg (by linarith : ¬ x > 600),
        if_pos hx5, if_true], by norm_num, by norm_num⟩
    · have hx300 : 300 < x := by
        by_contra hc
        exact hx5 (by push_neg at hc; linarith)
      exact ⟨_, air_eq x (by linarith) hx5,
        (air_bounds x hx300 hx600).1, (air_bounds x hx300 hx600).2⟩
  have ground_some : ∀ x : ℚ, 0 ≤ x → x ≤ 1200 →
      ∃ v, calculate_confidence x false = some v ∧ 70 ≤ v ∧ v ≤ 90 := by
    intro x hx0 hx1200
    by_cases hx10 : x / 60 ≤ 10
    · exact ⟨90, by simp only [calculate_confidence, Bool.false_eq_true, if_false,
        if_neg (by linarith : ¬ x > 1200), if_pos hx10], by norm_num, by norm_num⟩
    · have hx600 : 600 < x := by
        by_contra hc
        exact hx10 (by push_neg at hc; linarith)
      exact ⟨_, ground_eq x (by linarith) hx10,
        (ground_bounds x hx600 hx1200).1, (ground_bounds x hx600 hx1200).2⟩
  refine ⟨?_, ?_, ?_, air_some a ha, ?_, ?_, ?_, ?_, ground_some a ha, ?_, ?_, ?_, ?_, ?_,
    ?_, ?_, ?_, ?_, ?_⟩
  · intro h300
    simp only [calculate_confidence, if_neg (by linarith : ¬ a > 600),
      if_pos (by linarith : a / 60 ≤ 5), if_true]
  · simp only [calculate_confidence]
    norm_num
    exact_mod_cast pyInt_intCast 75
  · intro h
    simp only [calculate_confidence, if_pos (by linarith : a > 600), if_true]
  · -- airborne monotonicity
    intro vb hvb
    by_cases hb600 : b > 600
    · simp only [calculate_confidence, if_pos hb600, if_true] at hvb
      exact absurd hvb (by simp)
    · push_neg at hb600
      obtain ⟨va, hva, hva75, hva95⟩ := air_some a ha (le_trans hab hb600)
      refine ⟨va, hva, ?_⟩
      by_cases ha5 : a / 60 ≤ 5
      · have : va = 95 := by
          simp only [calculate_confidence, if_neg (by linarith : ¬ a > 600),
            if_pos ha5, if_true, Option.some.injEq] at hva
          omega
        subst this
        by_cases hb5 : b / 60 ≤ 5
        · simp only [calculate_confidence, if_neg (by linarith : ¬ b > 600),
            if_pos hb5, if_true, Option.some.injEq] at hvb
          omega
        · rw [air_eq b (by linarith) hb5] at hvb
          simp only [Option.some.injEq] at hvb
          have hb300 : 300 < b := by
            by_contra hc
            exact hb5 (by push_neg at hc; linarith)
          have := (air_bounds b hb300 hb600).2
          omega
      · have ha300 : 300 < a := by
          by_contra hc
          exact ha5 (by push_neg at hc; linarith)
        have hb5 : ¬ b / 60 ≤ 5 := fun hc => ha5 (by linarith)
        rw [air_eq a (by linarith) ha5] at hva
        rw [air_eq b (by linarith) hb5] at hvb
        have hva' : va = pyInt (95 - (a - 300) / 15) := by
          simpa using hva.symm
        have hvb' : vb = pyInt (95 - (b - 300) / 15) := by
          simpa using hvb.symm
        subst hva' hvb'
        exact pyInt_mono_of_nonneg (by linarith) (by linarith)
  · intro h600
    simp only [calculate_confidence, Bool.false_eq_true, if_false,
      if_neg (by linarith : ¬ a > 1200), if_pos (by linarith : a / 60 ≤ 10)]
  · simp only [calculate_confidence]
    norm_num
    exact_mod_cast pyInt_intCast 70
  · intro h
    simp only [calculate_confidence, Bool.false_eq_true, if_false,
      if_pos (by linarith : a > 1200)]
  · -- grounded monotonicity
    intro vb hvb
    by_cases hb1200 : b > 1200
    · simp only [calculate_confidence, Bool.false_eq_true, if_false,
        if_pos hb1200] at hvb
      exact absurd hvb (by simp)
    · push_neg at hb1200
      obtain ⟨va, hva, hva70, hva90⟩ := ground_some a ha (le_trans hab hb1200)
      refine ⟨va, hva, ?_⟩
      by_cases ha10 : a / 60 ≤ 10
      · have : va = 90 := by
          simp only [calculate_confidence, Bool.false_eq_true, if_false,
            if_neg (by linarith : ¬ a > 1200), if_pos ha10, Option.some.injEq] at hva
          omega
        subst this
        by_cases hb10 : b / 60 ≤ 10
        · simp only [calculate_confidence, Bool.false_eq_true, if_false,
            if_neg (by linarith : ¬ b > 1200), if_pos hb10, Option.some.injEq] at hvb
          omega
        · rw [ground_eq b (by linarith) hb10] at hvb
          simp only [Option.some.injEq] at hvb
          have hb600 : 600 < b := by
            by_contra hc
            exact hb10 (by push_neg at hc; linarith)
          have := (ground_bounds b hb600 hb1200).2
          omega
      · have ha600 : 600 < a := by
          by_contra hc
          exact ha10 (by push_neg at hc; linarith)
        have hb10 : ¬ b / 60 ≤ 10 := fun hc => ha10 (by linarith)
        rw [ground_eq a (by linarith) ha10] at hva
        rw [ground_eq b (by linarith) hb10] at hvb
        have hva' : va = pyInt (90 - (a - 600) / 30) := by
          simpa using hva.symm
        have hvb' : vb = pyInt (90 - (b - 600) / 30) := by
          simpa using hvb.symm
        subst hva' hvb'
        exact pyInt_mono_of_nonneg (by linarith) (by linarith)
  · intro lat lon h
    simp only [arrival_load, sub_zero, if_pos (by linarith : a > (7:ℚ) * 86400)]
  · intro lat lon h
    refine ⟨{ lat := some lat, lon := some lon, name := some ("Last known (jet arrival)"),
              reason := "last_known",
              confidence := ((max 10 (30 - pyInt (a / 86400 * 3)) : ℤ) : ℚ) }, ?_, rfl, ?_, ?_⟩
    · simp only [arrival_load, sub_zero,
        if_neg (by linarith : ¬ (a > (7:ℚ) * 86400))]
    · show (10 : ℚ) ≤ ((max 10 (30 - pyInt (a / 86400 * 3)) : ℤ) : ℚ)
      exact_mod_cast le_max_left 10 (30 - pyInt (a / 86400 * 3))
    · show ((max 10 (30 - pyInt (a / 86400 * 3)) : ℤ) : ℚ) ≤ 30
      have hp : 0 ≤ pyInt (a / 86400 * 3) := pyInt_nonneg (by positivity)
      have hle : max 10 (30 - pyInt (a / 86400 * 3)) ≤ 30 := by omega
      exact_mod_cast hle
  · intro lat lon
    have h0 : pyInt ((0:ℚ) / 86400 * 3) = 0 := by
      norm_num [pyInt, Int.floor_zero]
    have hmax : ((max 10 (30 - pyInt ((0:ℚ) / 86400 * 3)) : ℤ) : ℚ) = 30 := by
      rw [h0]
      norm_num [show max (10:ℤ) 30 = 30 from by decide]
    refine ⟨{ lat := some lat, lon := some lon, name := some ("Last known (jet arrival)"),
              reason := "last_known", confidence := 30 }, ?_, rfl⟩
    simp only [arrival_load, sub_zero,
      if_neg (by norm_num : ¬ ((0:ℚ) > 7 * 86400)), Option.some.injEq]
    rw [← hmax]
  · intro lat lon ca cb hca hcb
    by_cases hbs : b > (7:ℚ) * 86400
    · simp only [arrival_load, sub_zero, if_pos hbs] at hcb
      exact Option.noConfusion hcb
    · push_neg at hbs
      simp only [arrival_load, sub_zero,
        if_neg (by linarith : ¬ (a > (7:ℚ) * 86400)), Option.some.injEq] at hca
      simp only [arrival_load, sub_zero,
        if_neg (by linarith : ¬ (b > (7:ℚ) * 86400)), Option.some.injEq] at hcb
      rw [← hca, ← hcb]
      show ((max 10 (30 - pyInt (b / 86400 * 3)) : ℤ) : ℚ) ≤
        ((max 10 (30 - pyInt (a / 86400 * 3)) : ℤ) : ℚ)
      have hmono : pyInt (a / 86400 * 3) ≤ pyInt (b / 86400 * 3) :=
        pyInt_mono_of_nonneg (by positivity) (by linarith)
      have hle : max 10 (30 - pyInt (b / 86400 * 3)) ≤
          max 10 (30 - pyInt (a / 86400 * 3)) := by omega
      exact_mod_cast hle
  · norm_num [cal_conf]
  · have : min a 72 ≤ min b 72 := min_le_min hab le_rfl
    simp only [cal_conf]
    linarith
  · have : min a 72 ≤ 72 := min_le_right _ _
    simp only [cal_conf]
    linarith
  · have : 0 ≤ min a 72 := le_min ha (by norm_num)
    simp only [cal_conf]
    linarith
  · intro h72
    have : min a 72 = 72 := min_eq_right h72
    simp only [cal_conf, this]
    norm_num

/-- Witness for C6 at ages `a = 100`, `b = 450`. -/
theorem C6_decay_model_witness :
    calculate_confidence 100 true = some 95 ∧ calculate_confidence 600 true = some 75 :=
  ⟨(C6_decay_model 100 450 (by norm_num) (by norm_num)).1 (by norm_num),
   (C6_decay_model 100 450 (by norm_num) (by norm_num)).2.1⟩

/-! ### First-wins fold lemmas for CPython `min`/`max` with `key` -/

theorem pyMinBy_mem {α : Type} (key : α → ℚ) (a : α) (l : List α) :
    pyMinBy key a l ∈ a :: l := by
  induction l generalizing a with
  | nil => simp [pyMinBy]
  | cons x xs ih =>
    have step : pyMinBy key a (x :: xs) =
        pyMinBy key (if key x < key a then x else a) xs := rfl
    rw [step]
    rcases List.mem_cons.mp (ih (if key x < key a then x else a)) with h | h
    · rw [h]
      split
      · exact List.mem_cons_of_mem a (List.mem_cons_self x xs)
      · exact List.mem_cons_self a (x :: xs)
    · exact List.mem_cons_of_mem a (List.mem_cons_of_mem x h)

theorem pyMinBy_le {α : Type} (key : α → ℚ) (a : α) (l : List α) :
    ∀ x ∈ a :: l, key (pyMinBy key a l) ≤ key x := by
  induction l generalizing a with
  | nil =>
    intro x hx
    rcases List.mem_cons.mp hx with h | h
    · rw [h]; exact le_rfl
    · exact absurd h (List.not_mem_nil x)
  | cons y ys ih =>
    intro x hx
    have step : pyMinBy key a (y :: ys) =
        pyMinBy key (if key y < key a then y else a) ys := rfl
    have hsa : key (if key y < key a then y else a) ≤ key a := by
      split
      · linarith
      · exact le_rfl
    have hsy : key (if key y < key a then y else a) ≤ key y := by
      split
      · exact le_rfl
      · linarith [not_lt.mp (by assumption : ¬ key y < key a)]
    have hseed := ih (if key y < key a then y else a)
      (if key y < key a then y else a) (List.mem_cons_self _ _)
    rcases List.mem_cons.mp hx with h | h
    · rw [h, step]; exact hseed.trans hsa
    · rcases List.mem_cons.mp h with h2 | h2
      · rw [h2, step]; exact hseed.trans hsy
      · rw [step]; exact ih _ x (List.mem_cons_of_mem _ h2)

theorem pyMaxBy_mem {α : Type} (key : α → ℚ) (a : α) (l : List α) :
    pyMaxBy key a l ∈ a :: l := by
  induction l generalizing a with
  | nil => simp [pyMaxBy]
  | cons x xs ih =>
    have step : pyMaxBy key a (x :: xs) =
        pyMaxBy key (if key x > key a then x else a) xs := rfl
    rw [step]
    rcases List.mem_cons.mp (ih (if key x > key a then x else a)) with h | h
    · rw [h]
      split
      · exact List.mem_cons_of_mem a (List.mem_cons_self x xs)
      · exact List.mem_cons_self a (x :: xs)
    · exact List.mem_cons_of_mem a (List.mem_cons_of_mem x h)

theorem le_pyMaxBy {α : Type} (key : α → ℚ) (a : α) (l : List α) :
    ∀ x ∈ a :: l, key x ≤ key (pyMaxBy key a l) := by
  induction l generalizing a with
  | nil =>
    intro x hx
    rcases List.mem_cons.mp hx with h | h
    · rw [h]; exact le_rfl
    · exact absurd h (List.not_mem_nil x)
  | cons y ys ih =>
    intro x hx
    have step : pyMaxBy key a (y :: ys) =
        pyMaxBy key (if key y > key a then y else a) ys := rfl
    have hsa : key a ≤ key (if key y > key a then y else a) := by
      split
      · linarith
      · exact le_rfl
    have hsy : key y ≤ key (if key y > key a then y else a) := by
      split
      · exact le_rfl
      · linarith [not_lt.mp (by assumption : ¬ key y > key a)]
    have hseed := ih (if key y > key a then y else a)
      (if key y > key a then y else a) (List.mem_cons_self _ _)
    rcases List.mem_cons.mp hx with h | h
    · rw [h, step]; exact hsa.trans hseed
    · rcases List.mem_cons.mp h with h2 | h2
      · rw [h2, step]; exact hsy.trans hseed
      · rw [step]; exact ih _ x (List.mem_cons_of_mem _ h2)

/-- The clamp `if g < 0.1 then 0.1 else g` is `max g 0.1`. -/
theorem clamp_eq_max (g : ℚ) : (if g < 1/10 then (1/10 : ℚ) else g) = max g (1/10) := by
  split
  · exact (max_eq_right (le_of_lt (by assumption))).symm
  · exact (max_eq_left (not_lt.mp (by assumption))).symm

/-- **C4**: with at least two raw results and at least one context event,
the feasibility filter discards exactly the results unreachable from every
context event within `max(time-gap, 0.1 h) × 800 km/h`; among the surviving
results the one nearest the unweighted centroid of the context coordinates
is selected (first-wins on ties); and when the filter discards everything,
the single highest-importance raw result is returned flagged
`all_infeasible`. -/
theorem C4_disambiguation (hav : ℚ → ℚ → ℚ → ℚ → ℚ) (results : List GeoResult)
    (context_events : List CtxEvent) (target_dt : ℚ)
    (h2 : 2 ≤ results.length) (hctx : context_events ≠ []) :
    (∀ r ∈ results,
      (r ∈ results.filter (fun r =>
          is_physically_feasible hav r.latitude r.longitude context_events target_dt 800) ↔
        ¬ (∀ c ∈ context_events,
            max (|c.dt - target_dt| / 3600) (1/10) * 800 <
              hav c.lat c.lon r.latitude r.longitude))) ∧
    (results.filter (fun r =>
        is_physically_feasible hav r.latitude r.longitude context_events target_dt 800) ≠ [] →
      ∃ best,
        (disambiguate_results hav results context_events target_dt).1 = some best ∧
        best ∈ results.filter (fun r =>
          is_physically_feasible hav r.latitude r.longitude context_events target_dt 800) ∧
        (∀ r ∈ results.filter (fun r =>
            is_physically_feasible hav r.latitude r.longitude context_events target_dt 800),
          hav (compute_centroid (context_events.map (fun ev => (ev.lat, ev.lon)))).1
              (compute_centroid (context_events.map (fun ev => (ev.lat, ev.lon)))).2
              best.latitude best.longitude ≤
            hav (compute_centroid (context_events.map (fun ev => (ev.lat, ev.lon)))).1
              (compute_centroid (context_events.map (fun ev => (ev.lat, ev.lon)))).2
              r.latitude r.longitude)) ∧
    (results.filter (fun r =>
        is_physically_feasible hav r.latitude r.longitude context_events target_dt 800) = [] →
      ∃ best,
        (disambiguate_results hav results context_events target_dt).1 = some best ∧
        best ∈ results ∧
        (∀ r ∈ results, r.importance.getD 0 ≤ best.importance.getD 0) ∧
        ∃ alert, (disambiguate_results hav results context_events target_dt).2 = some alert ∧
          alert.kind = "all_infeasible") := by
  match results, h2 with
  | r0 :: r1 :: rest, _ =>
  refine ⟨?_, ?_, ?_⟩
  · intro r _
    rw [List.mem_filter]
    simp only [is_physically_feasible, if_neg hctx, List.any_eq_true, decide_eq_true_eq]
    constructor
    · rintro ⟨-, c, hc, hle⟩ hall
      have := hall c hc
      rw [clamp_eq_max] at hle
      linarith
    · intro hnall
      push_neg at hnall
      obtain ⟨c, hc, hge⟩ := hnall
      refine ⟨by assumption, c, hc, ?_⟩
      rw [clamp_eq_max]
      linarith
  · intro hne
    obtain ⟨f, fs, hffs⟩ := List.exists_cons_of_ne_nil hne
    refine ⟨pyMinBy (fun r =>
        hav (compute_centroid (context_events.map (fun ev => (ev.lat, ev.lon)))).1
          (compute_centroid (context_events.map (fun ev => (ev.lat, ev.lon)))).2
          r.latitude r.longitude) f fs, ?_, ?_, ?_⟩
    · simp only [disambiguate_results, if_neg hctx, hffs]
      split <;> rfl
    · rw [hffs]
      exact pyMinBy_mem _ f fs
    · rw [hffs]
      exact pyMinBy_le _ f fs
  · intro hemp
    refine ⟨pyMaxBy (fun r => r.importance.getD 0) r0 (r1 :: rest), ?_, ?_, ?_, ?_⟩
    · simp only [disambiguate_results, if_neg hctx, hemp]
    · exact pyMaxBy_mem _ r0 (r1 :: rest)
    · exact le_pyMaxBy _ r0 (r1 :: rest)
    · refine ⟨Alert.all_infeasible (r0 :: r1 :: rest).length, ?_, rfl⟩
      simp only [disambiguate_results, if_neg hctx, hemp]

/-- Witness for C4: two results, one context event; only the nearby result
is feasible, and it wins regardless of importance. -/
theorem C4_disambiguation_witness :
    ∃ best,
      (disambiguate_results (fun a b c d => |a - c| * 111 + |b - d| * 111)
        [⟨50, 50, some 1⟩, ⟨1, 1, some (1/2)⟩] [⟨1, 1, 0⟩] 3600).1 = some best ∧
      best ∈ ([⟨50, 50, some 1⟩, ⟨1, 1, some (1/2)⟩] : List GeoResult).filter (fun r =>
        is_physically_feasible (fun a b c d => |a - c| * 111 + |b - d| * 111)
          r.latitude r.longitude [⟨1, 1, 0⟩] 3600 800) ∧
      (∀ r ∈ ([⟨50, 50, some 1⟩, ⟨1, 1, some (1/2)⟩] : List GeoResult).filter (fun r =>
          is_physically_feasible (fun a b c d => |a - c| * 111 + |b - d| * 111)
            r.latitude r.longitude [⟨1, 1, 0⟩] 3600 800),
        (fun (x : GeoResult) =>
          (fun a b c d => |a - c| * 111 + |b - d| * 111)
            (compute_centroid (([⟨1, 1, 0⟩] : List CtxEvent).map (fun ev => (ev.lat, ev.lon)))).1
            (compute_centroid (([⟨1, 1, 0⟩] : List CtxEvent).map (fun ev => (ev.lat, ev.lon)))).2
            x.latitude x.longitude) best ≤
          (fun (x : GeoResult) =>
            (fun a b c d => |a - c| * 111 + |b - d| * 111)
              (compute_centroid (([⟨1, 1, 0⟩] : List CtxEvent).map (fun ev => (ev.lat, ev.lon)))).1
              (compute_centroid (([⟨1, 1, 0⟩] : List CtxEvent).map (fun ev => (ev.lat, ev.lon)))).2
              x.latitude x.longitude) r) :=
  (C4_disambiguation (fun a b c d => |a - c| * 111 + |b - d| * 111)
    [⟨50, 50, some 1⟩, ⟨1, 1, some (1/2)⟩] [⟨1, 1, 0⟩] 3600
    (by norm_num) (by simp)).2.1 (by
      norm_num [is_physically_feasible, List.filter, clamp_eq_max])

/-! ### `_stamp` only touches the provenance fields -/

theorem stamp_reason (c : CandidateCore) (a : Option ℚ) (s : String) (u : Option String) :
    (stamp c a s u).reason = c.reason := by
  unfold stamp
  rcases u with _ | v
  · rfl
  · dsimp only
    split <;> rfl

theorem stamp_confidence (c : CandidateCore) (a : Option ℚ) (s : String) (u : Option String) :
    (stamp c a s u).confidence = c.confidence := by
  unfold stamp
  rcases u with _ | v
  · rfl
  · dsimp only
    split <;> rfl

theorem stamp_lat (c : CandidateCore) (a : Option ℚ) (s : String) (u : Option String) :
    (stamp c a s u).lat = c.lat := by
  unfold stamp
  rcases u with _ | v
  · rfl
  · dsimp only
    split <;> rfl

theorem stamp_lon (c : CandidateCore) (a : Option ℚ) (s : String) (u : Option String) :
    (stamp c a s u).lon = c.lon := by
  unfold stamp
  rcases u with _ | v
  · rfl
  · dsimp only
    split <;> rfl

theorem stamp_name (c : CandidateCore) (a : Option ℚ) (s : String) (u : Option String) :
    (stamp c a s u).name = c.name := by
  unfold stamp
  rcases u with _ | v
  · rfl
  · dsimp only
    split <;> rfl

theorem stamp_in_flight (c : CandidateCore) (a : Option ℚ) (s : String) (u : Option String) :
    (stamp c a s u).in_flight = c.in_flight := by
  unfold stamp
  rcases u with _ | v
  · rfl
  · dsimp only
    split <;> rfl

theorem stamp_tfr_confirmed (c : CandidateCore) (a : Option ℚ) (s : String) (u : Option String) :
    (stamp c a s u).tfr_confirmed = c.tfr_confirmed := by
  unfold stamp
  rcases u with _ | v
  · rfl
  · dsimp only
    split <;> rfl

theorem stamp_unknown (c : CandidateCore) (a : Option ℚ) (s : String) (u : Option String) :
    (stamp c a s u).unknown = c.unknown := by
  unfold stamp
  rcases u with _ | v
  · rfl
  · dsimp only
    split <;> rfl

/-- Fixture environment for concrete evaluations: distance and local hour
are constant (daytime, far from every base), the geocoder returns nothing. -/
def testParams : CycleParams :=
  ⟨fun _ _ _ _ => 10000, fun _ => 12, fun _ => .ok [], fun _ => .ok none⟩

/-- Fixture airborne snapshot. -/
def testAirborne : PlaneState :=
  { callsign := "92-9000", lat := 38, lon := -77, altitude := 30000,
    on_ground := false, ts := 0, status := "airborne",
    tracker_url := none, confidence := some 95 }

/-- **C2**: whenever the flight feed yields an airborne state, the cascade
returns that plane position with `reason = "plane_air"`, `in_flight = true`
and the confidence carried by the flight feed (default 95), regardless of
every other source. -/
theorem C2_airborne_wins (P : CycleParams) (inp : CycleInput) (p : PlaneState)
    (hp : inp.plane = some p) (hair : p.status = "airborne") :
    (current_coords P inp).1.reason = "plane_air" ∧
    (current_coords P inp).1.in_flight = some true ∧
    (current_coords P inp).1.confidence = p.confidence.getD 95 ∧
    (current_coords P inp).1.lat = some p.lat ∧
    (current_coords P inp).1.lon = some p.lon := by
  have hcc : (current_coords P inp).1 = { toCandidateCore := airborne_candidate p } := by
    unfold current_coords
    rw [hp]
    simp only [if_pos hair]
  rw [hcc]
  exact ⟨(stamp_reason _ _ _ _), (stamp_in_flight _ _ _ _),
    (stamp_confidence _ _ _ _), (stamp_lat _ _ _ _), (stamp_lon _ _ _ _)⟩

/-- Witness for C2 with every other feed silent. -/
theorem C2_airborne_wins_witness :
    (current_coords testParams
      { plane := some testAirborne, events := [], vip_recs := [], news := none,
        arrival_file := .missing, now := 0 }).1.reason = "plane_air" ∧
    (current_coords testParams
      { plane := some testAirborne, events := [], vip_recs := [], news := none,
        arrival_file := .missing, now := 0 }).1.in_flight = some true :=
  ⟨(C2_airborne_wins testParams _ testAirborne rfl rfl).1,
   (C2_airborne_wins testParams _ testAirborne rfl rfl).2.1⟩

/-- Every candidate produced by the schedule branch carries one of the
three `calendar_`-prefixed reason tags. -/
theorem calendar_candidate_reason (P : CycleParams) (events : List Event) (now : ℚ)
    (event : Option Event) (c : CandidateCore)
    (h : (calendar_candidate P events now event).1 = some c) :
    c.reason = "calendar_alias" ∨ c.reason = "calendar_summary" ∨
      c.reason = "calendar_geocode" := by
  unfold calendar_candidate at h
  rcases event with _ | ev
  · exact absurd h (by simp)
  · dsimp only at h
    split at h
    · exact absurd h (by simp)
    · split at h
      · simp only [Option.some.injEq] at h
        left
        rw [← h]
        exact stamp_reason _ _ _ _
      · split at h
        · simp only [Option.some.injEq] at h
          right; left
          rw [← h]
          exact stamp_reason _ _ _ _
        · split at h
          · split at h
            · simp only [Option.some.injEq] at h
              right; right
              rw [← h]
              exact stamp_reason _ _ _ _
            · exact absurd h (by simp)
          · exact absurd h (by simp)

/-- **C3**: a grounded flight-feed state whose timestamp is newer than the
current schedule event's start (or with no schedule event) wins with reason
`plane_ground` — or `plane_tfr` with the +10 bonus capped at 95 when within
55 km of an active airspace restriction — and persists its position into
the arrival cache; a grounded state that is not newer is skipped, the
cascade falling through past the flight branch, and in the schedule-branch
scenario (no overnight match, schedule candidate present and not beaten by
the TFR candidate) the winner carries a `calendar_`-prefixed reason. -/
theorem C3_grounded_branch (P : CycleParams) (inp : CycleInput) (p : PlaneState)
    (hp : inp.plane = some p) (hst : p.status = "grounded") :
    (plane_newer_than_event (some p) (current_event inp.events inp.now 36 24) = true →
      (current_coords P inp).2 = ArrivalFile.good ⟨p.lat, p.lon, inp.now⟩ ∧
      (current_coords P inp).1.lat = some p.lat ∧
      (current_coords P inp).1.lon = some p.lon ∧
      (near_tfr_check P.hav p inp.vip_recs = true →
        (current_coords P inp).1.reason = "plane_tfr" ∧
        (current_coords P inp).1.confidence = min 95 (p.confidence.getD 90 + 10)) ∧
      (near_tfr_check P.hav p inp.vip_recs = false →
        (current_coords P inp).1.reason = "plane_ground" ∧
        (current_coords P inp).1.confidence = p.confidence.getD 90)) ∧
    (plane_newer_than_event (some p) (current_event inp.events inp.now 36 24) = false →
      current_coords P inp =
        (cascade_after_plane P inp (current_event inp.events inp.now 36 24),
         inp.arrival_file) ∧
      (∀ c : CandidateCore,
        get_overnight_base P.hav P.localHour inp.events inp.now = none →
        (calendar_candidate P inp.events inp.now
          (current_event inp.events inp.now 36 24)).1 = some c →
        (∀ t, tfr_candidate inp.vip_recs = some t → t.confidence ≤ c.confidence) →
        (current_coords P inp).1.toCandidateCore = c ∧
        strStarts ("calendar_") (current_coords P inp).1.reason = true)) := by
  have hnotair : ¬ p.status = "airborne" := by
    rw [hst]
    decide
  constructor
  · intro hnew
    have hcc : current_coords P inp =
        ({ toCandidateCore := grounded_candidate P.hav p inp.vip_recs inp.now },
         arrival_save p.lat p.lon inp.now) := by
      unfold current_coords
      rw [hp]
      dsimp only
      rw [if_neg hnotair, if_pos ⟨hst, hnew⟩]
    rw [hcc]
    refine ⟨rfl, ?_, ?_, ?_, ?_⟩
    · show (grounded_candidate P.hav p inp.vip_recs inp.now).lat = some p.lat
      unfold grounded_candidate
      rw [stamp_lat]
    · show (grounded_candidate P.hav p inp.vip_recs inp.now).lon = some p.lon
      unfold grounded_candidate
      rw [stamp_lon]
    · intro hnear
      constructor
      · show (grounded_candidate P.hav p inp.vip_recs inp.now).reason = "plane_tfr"
        unfold grounded_candidate
        rw [stamp_reason]
        simp only [hnear, if_true]
      · show (grounded_candidate P.hav p inp.vip_recs inp.now).confidence = _
        unfold grounded_candidate
        rw [stamp_confidence]
        simp only [hnear, if_true]
    · intro hfar
      constructor
      · show (grounded_candidate P.hav p inp.vip_recs inp.now).reason = "plane_ground"
        unfold grounded_candidate
        rw [stamp_reason]
        simp only [hfar, Bool.false_eq_true, if_false]
      · show (grounded_candidate P.hav p inp.vip_recs inp.now).confidence = _
        unfold grounded_candidate
        rw [stamp_confidence]
        simp only [hfar, Bool.false_eq_true, if_false]
  · intro hnot
    have hcc : current_coords P inp =
        (cascade_after_plane P inp (current_event inp.events inp.now 36 24),
         inp.arrival_file) := by
      unfold current_coords
      rw [hp]
      dsimp only
      rw [if_neg hnotair, if_neg (by
        rintro ⟨-, h2⟩
        rw [hnot] at h2
        exact absurd h2 (by decide))]
    refine ⟨hcc, ?_⟩
    intro c hov hcal htfr
    have hwin : (current_coords P inp).1.toCandidateCore = c := by
      rw [hcc]
      unfold cascade_after_plane
      rw [hov]
      dsimp only
      rw [hcal]
      rcases htc : tfr_candidate inp.vip_recs with _ | t
      · rfl
      · have hle := htfr t htc
        have hsel : select_highest_confidence
            (([some c, some t] : List (Option CandidateCore)).filterMap id) =
            some (if t.confidence > c.confidence then t else c) := rfl
        rw [hsel]
        dsimp only
        rw [if_neg (not_lt.mpr hle)]
    refine ⟨hwin, ?_⟩
    have hreason : (current_coords P inp).1.reason = c.reason := by
      show (current_coords P inp).1.toCandidateCore.reason = c.reason
      rw [hwin]
    rw [hreason]
    rcases calendar_candidate_reason P inp.events inp.now _ c hcal with h | h | h <;>
      rw [h] <;> decide

/-- Fixture grounded snapshot. -/
def testGrounded : PlaneState :=
  { callsign := "92-9000", lat := 26, lon := -80, altitude := 0,
    on_ground := true, ts := 0, status := "grounded",
    tracker_url := none, confidence := some 90 }

/-- Witness for C3: a grounded state with no schedule event wins with
`plane_ground` and persists into the arrival cache. -/
theorem C3_grounded_branch_witness :
    (current_coords testParams
      { plane := some testGrounded, events := [], vip_recs := [], news := none,
        arrival_file := .missing, now := 0 }).2 = ArrivalFile.good ⟨26, -80, 0⟩ ∧
    (current_coords testParams
      { plane := some testGrounded, events := [], vip_recs := [], news := none,
        arrival_file := .missing, now := 0 }).1.reason = "plane_ground" := by
  have h := (C3_grounded_branch testParams
    { plane := some testGrounded, events := [], vip_recs := [], news := none,
      arrival_file := .missing, now := 0 } testGrounded rfl rfl).1 rfl
  exact ⟨h.1, (h.2.2.2.2 rfl).1⟩

/-- **C8**: when both a schedule-derived candidate and a TFR candidate exist
in the same cycle (flight feed silent, no overnight match), the one with
the strictly higher confidence wins, and an exact tie goes to the
first-evaluated schedule candidate. -/
theorem C8_confidence_tie_break (P : CycleParams) (inp : CycleInput)
    (c t : CandidateCore)
    (hplane : inp.plane = none)
    (hov : get_overnight_base P.hav P.localHour inp.events inp.now = none)
    (hcal : (calendar_candidate P inp.events inp.now
      (current_event inp.events inp.now 36 24)).1 = some c)
    (htfr : tfr_candidate inp.vip_recs = some t) :
    (t.confidence > c.confidence → (current_coords P inp).1.toCandidateCore = t) ∧
    (c.confidence > t.confidence → (current_coords P inp).1.toCandidateCore = c) ∧
    (c.confidence = t.confidence → (current_coords P inp).1.toCandidateCore = c) := by
  have hcc : current_coords P inp =
      (cascade_after_plane P inp (current_event inp.events inp.now 36 24),
       inp.arrival_file) := by
    unfold current_coords
    rw [hplane]
  have hsel : (current_coords P inp).1.toCandidateCore =
      (if t.confidence > c.confidence then t else c) := by
    rw [hcc]
    unfold cascade_after_plane
    rw [hov]
    dsimp only
    rw [hcal, htfr]
    rfl
  refine ⟨fun h => ?_, fun h => ?_, fun h => ?_⟩
  · rw [hsel, if_pos h]
  · rw [hsel, if_neg (not_lt.mpr (le_of_lt h))]
  · rw [hsel, if_neg (not_lt.mpr (le_of_eq h.symm))]

/-- The concrete schedule candidate for the C8 witness: alias hit on
"Oval Office" at age 0. -/
def c8Calendar : CandidateCore :=
  { lat := some 38.897676, lon := some (-77.036529), name := some ("Oval Office, WH"),
    confidence := 70, reason := "calendar_alias", event_summary := some ("Meeting"),
    source_display := some ("Factba.se schedule, just now"),
    source_url := some FACTBASE_URL }

/-- The concrete TFR candidate for the C8 witness. -/
def c8Tfr : CandidateCore :=
  { lat := some (407/10), lon := some (-74), name := some ("VIP"),
    confidence := 40, reason := "tfr_json",
    source_display := some ("FAA VIP‑TFR JSON"), source_url := some TFR_JSON_URL }

/-- Witness for C8: schedule candidate at confidence 70 beats the TFR
candidate at confidence 40. -/
theorem C8_confidence_tie_break_witness :
    (current_coords testParams
      { plane := none, events := [⟨0, "Meeting", "Oval Office"⟩],
        vip_recs := [⟨"N40.7, W74.0", some "VIP"⟩], news := none,
        arrival_file := .missing, now := 0 }).1.toCandidateCore = c8Calendar := by
  have hov : get_overnight_base testParams.hav testParams.localHour
      [⟨0, "Meeting", "Oval Office"⟩] 0 = none := by
    rfl
  have hw : within_window 0 ⟨0, "Meeting", "Oval Office"⟩ 36 true = true := by
    simp only [within_window, decide_eq_true_eq]
    norm_num
  have heff : has_effective_location ⟨0, "Meeting", "Oval Office"⟩ = true := by
    decide
  have hev : current_event [⟨0, "Meeting", "Oval Office"⟩] 0 36 24 =
      some ⟨0, "Meeting", "Oval Office"⟩ := by
    simp only [current_event, List.filter, hw, List.insertionSort, List.orderedInsert,
      List.find?, heff]
  have h1 : clean (pyStrip ("Oval Office")) = "oval office" := by decide
  have h2 : clean ("Meeting") = "meeting" := by decide
  have h3 : strSub ("no public events scheduled") ("meeting") = false := by decide
  have hp1 : strSub ("the white house") ("oval office") = false := by decide
  have hp2 : strSub ("oval office") ("oval office") = true := by decide
  have hcal : (calendar_candidate testParams [⟨0, "Meeting", "Oval Office"⟩] 0
      (current_event [⟨0, "Meeting", "Oval Office"⟩] 0 36 24)).1 = some c8Calendar := by
    rw [hev]
    have hfbne : ¬ (FACTBASE_URL = "") := by decide
    have happ : ("Factba.se schedule" ++ ", " ++ "just now") =
        "Factba.se schedule, just now" := by decide
    simp only [calendar_candidate, h1, h2, h3, Bool.false_eq_true, if_false,
      PLACE_ALIASES, List.find?, hp1, hp2, c8Calendar, stamp, age_human]
    norm_num [cal_conf, min_def, hfbne, happ]
  have hsearch : coordSearch ("N40.7, W74.0").toList =
      some ('N', (['4', '0'], ['7']), some 'W', (['7', '4'], ['0'])) := by
    decide
  have htfr : tfr_candidate [⟨"N40.7, W74.0", some "VIP"⟩] = some c8Tfr := by
    have htne : ¬ (TFR_JSON_URL = "") := by decide
    simp only [tfr_candidate, parse_tfr_coordinates, hsearch, decVal,
      digitsVal, stamp, c8Tfr, Option.getD]
    norm_num [htne, (by decide : (('N' : Char) = 'S') = False),
      (by decide : ('4'.toNat - 48) = 4), (by decide : ('0'.toNat - 48) = 0),
      (by decide : ('7'.toNat - 48) = 7)]
  exact (C8_confidence_tie_break testParams
    { plane := none, events := [⟨0, "Meeting", "Oval Office"⟩],
      vip_recs := [⟨"N40.7, W74.0", some "VIP"⟩], news := none,
      arrival_file := .missing, now := 0 } c8Calendar c8Tfr rfl hov hcal htfr).2.1
    (by norm_num [c8Calendar, c8Tfr])

/-- **C10**: when every feed yields no candidate and the arrival cache is
empty or expired, the cascade returns the terminal candidate with reason
`"unknown"` and confidence 0, with no `lat`, `lon` or `name`, carrying the
low-confidence calendar guess under `last_known` exactly when one was
computed during the cycle. -/
theorem C10_unknown_terminal (P : CycleParams) (inp : CycleInput)
    (hplane : inp.plane = none)
    (hov : get_overnight_base P.hav P.localHour inp.events inp.now = none)
    (hcal : (calendar_candidate P inp.events inp.now
      (current_event inp.events inp.now 36 24)).1 = none)
    (htfr : tfr_candidate inp.vip_recs = none)
    (hnews : inp.news = none)
    (harr : arrival_load inp.arrival_file inp.now 7 = none) :
    (current_coords P inp).1.reason = "unknown" ∧
    (current_coords P inp).1.confidence = 0 ∧
    (current_coords P inp).1.lat = none ∧
    (current_coords P inp).1.lon = none ∧
    (current_coords P inp).1.name = none ∧
    (current_coords P inp).1.unknown = some true ∧
    (current_coords P inp).1.last_known =
      (calendar_candidate P inp.events inp.now
        (current_event inp.events inp.now 36 24)).2 := by
  have hcc : (current_coords P inp).1 =
      unknown_candidate (calendar_candidate P inp.events inp.now
        (current_event inp.events inp.now 36 24)).2 := by
    unfold current_coords
    rw [hplane]
    dsimp only
    unfold cascade_after_plane
    rw [hov]
    dsimp only
    rw [hcal, htfr, hnews, harr]
    rfl
  rw [hcc]
  exact ⟨rfl, rfl, rfl, rfl, rfl, rfl, rfl⟩

/-- Witness for C10 with every feed silent and an empty cache. -/
theorem C10_unknown_terminal_witness :
    (current_coords testParams
      { plane := none, events := [], vip_recs := [], news := none,
        arrival_file := .missing, now := 0 }).1.reason = "unknown" ∧
    (current_coords testParams
      { plane := none, events := [], vip_recs := [], news := none,
        arrival_file := .missing, now := 0 }).1.confidence = 0 := by
  have h := C10_unknown_terminal testParams
    { plane := none, events := [], vip_recs := [], news := none,
      arrival_file := .missing, now := 0 } rfl rfl rfl rfl rfl rfl
  exact ⟨h.1, h.2.1⟩

/-! ### Helper lemmas for the data-model invariant -/

/-- The closed reason-tag set actually produced by the cascade (the spec's
list with `last_arrival` replaced by the code's `last_known`). -/
def CANDIDATE_REASONS : List String :=
  ["plane_air", "plane_ground", "plane_tfr", "overnight_dc", "overnight_fl",
   "overnight_nj", "calendar_alias", "calendar_summary", "calendar_geocode",
   "tfr_json", "newswire", "last_known", "unknown"]

theorem within_window_true_iff (now : ℚ) (e : Event) (hours : ℚ) :
    within_window now e hours true = true ↔
      (0 ≤ (now - e.dtstart_utc) / 3600 ∧ (now - e.dtstart_utc) / 3600 ≤ hours) := by
  simp [within_window]

theorem within_window_false_iff (now : ℚ) (e : Event) (hours : ℚ) :
    within_window now e hours false = true ↔
      (0 ≤ (e.dtstart_utc - now) / 3600 ∧ (e.dtstart_utc - now) / 3600 ≤ hours) := by
  simp [within_window]

/-- Any event chosen by `current_event` lies in the look-back or the
look-ahead window. -/
theorem current_event_window (events : List Event) (now ph fh : ℚ) (ev : Event)
    (h : current_event events now ph fh = some ev) :
    (0 ≤ (now - ev.dtstart_utc) / 3600 ∧ (now - ev.dtstart_utc) / 3600 ≤ ph) ∨
    (0 ≤ (ev.dtstart_utc - now) / 3600 ∧ (ev.dtstart_utc - now) / 3600 ≤ fh) := by
  have hrec : ∀ e, e ∈ (events.filter (fun e => within_window now e ph true)).insertionSort
      (fun a b => now - a.dtstart_utc ≤ now - b.dtstart_utc) →
      0 ≤ (now - e.dtstart_utc) / 3600 ∧ (now - e.dtstart_utc) / 3600 ≤ ph := by
    intro e he
    have hmem := (List.mem_insertionSort _).mp he
    have hw := (List.mem_filter.mp hmem).2
    exact (within_window_true_iff now e ph).mp hw
  have hupc : ∀ e, e ∈ (events.filter (fun e => within_window now e fh false)).insertionSort
      (fun a b => a.dtstart_utc - now ≤ b.dtstart_utc - now) →
      0 ≤ (e.dtstart_utc - now) / 3600 ∧ (e.dtstart_utc - now) / 3600 ≤ fh := by
    intro e he
    have hmem := (List.mem_insertionSort _).mp he
    have hw := (List.mem_filter.mp hmem).2
    exact (within_window_false_iff now e fh).mp hw
  unfold current_event at h
  dsimp only at h
  split at h
  · next heq =>
    simp only [Option.some.injEq] at h
    subst h
    exact Or.inl (hrec _ (List.mem_of_find?_eq_some heq))
  · split at h
    · next r rest heq =>
      simp only [Option.some.injEq] at h
      subst h
      exact Or.inl (hrec _ (heq ▸ List.mem_cons_self _ _))
    · next heq =>
      split at h
      · next heq2 =>
        simp only [Option.some.injEq] at h
        subst h
        exact Or.inr (hupc _ (List.mem_of_find?_eq_some heq2))
      · exact Or.inr (hupc _ (List.mem_of_mem_head? h))

theorem cal_conf_lower (age : ℚ) : 30 ≤ cal_conf age := by
  have : min age 72 ≤ 72 := min_le_right _ _
  simp only [cal_conf]
  linarith

theorem cal_conf_upper (age : ℚ) (h : -24 ≤ age) : cal_conf age ≤ 100 := by
  have h1 : (-24 : ℚ) ≤ min age 72 := le_min h (by norm_num)
  simp only [cal_conf]
  linarith

/-- A loaded arrival candidate has reason `last_known` and confidence in
`[10, 30]` (given a non-future record timestamp). -/
theorem arrival_load_spec (file : ArrivalFile) (now : ℚ) (c : CandidateCore)
    (h : arrival_load file now 7 = some c)
    (hts : ∀ r, file = .good r → r.ts ≤ now) :
    c.reason = "last_known" ∧ 10 ≤ c.confidence ∧ c.confidence ≤ 30 := by
  rcases file with _ | _ | r
  · exact absurd h (by simp [arrival_load])
  · exact absurd h (by simp [arrival_load])
  · have hr := hts r rfl
    simp only [arrival_load] at h
    split at h
    · exact absurd h (by simp)
    · simp only [Option.some.injEq] at h
      rw [← h]
      refine ⟨rfl, ?_, ?_⟩
      · show (10 : ℚ) ≤ ((max 10 (30 - pyInt ((now - r.ts) / 86400 * 3)) : ℤ) : ℚ)
        exact_mod_cast le_max_left _ _
      · show ((max 10 (30 - pyInt ((now - r.ts) / 86400 * 3)) : ℤ) : ℚ) ≤ 30
        have hp : 0 ≤ pyInt ((now - r.ts) / 86400 * 3) := pyInt_nonneg (by
          have : 0 ≤ now - r.ts := by linarith
          positivity)
        have hle : max 10 (30 - pyInt ((now - r.ts) / 86400 * 3)) ≤ 30 := by omega
        exact_mod_cast hle

theorem select_highest_confidence_mem (l : List CandidateCore) (c : CandidateCore)
    (h : select_highest_confidence l = some c) : c ∈ l := by
  rcases l with _ | ⟨a, rest⟩
  · exact absurd h (by simp [select_highest_confidence])
  · simp only [select_highest_confidence, Option.some.injEq] at h
    rw [← h]
    exact pyMaxBy_mem _ a rest

theorem overnight_reason_cases (name : String) :
    overnight_reason name = "overnight_dc" ∨ overnight_reason name = "overnight_fl" ∨
      overnight_reason name = "overnight_nj" := by
  unfold overnight_reason
  split
  · exact Or.inl rfl
  · split
    · exact Or.inr (Or.inl rfl)
    · exact Or.inr (Or.inr rfl)

/-- A schedule-branch candidate's confidence is the decayed schedule
confidence of the chosen event. -/
theorem calendar_candidate_confidence (P : CycleParams) (events : List Event) (now : ℚ)
    (event : Option Event) (c : CandidateCore)
    (h : (calendar_candidate P events now event).1 = some c) :
    ∃ ev, event = some ev ∧ c.confidence = cal_conf ((now - ev.dtstart_utc) / 3600) := by
  unfold calendar_candidate at h
  rcases event with _ | ev
  · exact absurd h (by simp)
  · refine ⟨ev, rfl, ?_⟩
    dsimp only at h
    split at h
    · exact absurd h (by simp)
    · split at h
      · simp only [Option.some.injEq] at h
        rw [← h, stamp_confidence]
      · split at h
        · simp only [Option.some.injEq] at h
          rw [← h, stamp_confidence]
        · split at h
          · split at h
            · simp only [Option.some.injEq] at h
              rw [← h, stamp_confidence]
            · exact absurd h (by simp)
          · exact absurd h (by simp)

theorem tfr_candidate_spec (vip_recs : List TfrRec) (c : CandidateCore)
    (h : tfr_candidate vip_recs = some c) :
    c.reason = "tfr_json" ∧ c.confidence = 40 := by
  rcases vip_recs with _ | ⟨best, rest⟩
  · exact absurd h (by simp [tfr_candidate])
  · unfold tfr_candidate at h
    dsimp only at h
    split at h
    · exact absurd h (by simp)
    · simp only [Option.some.injEq] at h
      rw [← h]
      exact ⟨stamp_reason _ _ _ _, stamp_confidence _ _ _ _⟩

/-- **C7 (amended)**: every winner's `reason` belongs to the closed tag set
with `last_known` in place of the spec's `last_arrival`, and its confidence
is a rational in `[0, 100]` (an integer for every source except the
schedule-derived candidates, whose decayed confidence may be fractional) —
assuming the flight feed reports confidences in `[0, 100]` (which
`calculate_confidence` guarantees) and the arrival record is not
timestamped in the future. -/
theorem C7_amended (P : CycleParams) (inp : CycleInput)
    (hpc : ∀ p c, inp.plane = some p → p.confidence = some c → 0 ≤ c ∧ c ≤ 100)
    (hts : ∀ r, inp.arrival_file = .good r → r.ts ≤ inp.now) :
    (current_coords P inp).1.reason ∈ CANDIDATE_REASONS ∧
    0 ≤ (current_coords P inp).1.confidence ∧
    (current_coords P inp).1.confidence ≤ 100 := by
  have hafter : (cascade_after_plane P inp (current_event inp.events inp.now 36 24)).reason
        ∈ CANDIDATE_REASONS ∧
      0 ≤ (cascade_after_plane P inp (current_event inp.events inp.now 36 24)).confidence ∧
      (cascade_after_plane P inp (current_event inp.events inp.now 36 24)).confidence ≤ 100 := by
    unfold cascade_after_plane
    cases hov : get_overnight_base P.hav P.localHour inp.events inp.now with
    | some base =>
      dsimp only
      refine ⟨?_, ?_, ?_⟩
      · show (overnight_candidate base).reason ∈ CANDIDATE_REASONS
        unfold overnight_candidate
        rw [stamp_reason]
        show overnight_reason base.name ∈ CANDIDATE_REASONS
        rcases overnight_reason_cases base.name with h | h | h <;> rw [h] <;> decide
      · show (0:ℚ) ≤ (overnight_candidate base).confidence
        unfold overnight_candidate
        rw [stamp_confidence]
        show (0:ℚ) ≤ 58
        norm_num
      · show (overnight_candidate base).confidence ≤ 100
        unfold overnight_candidate
        rw [stamp_confidence]
        show (58:ℚ) ≤ 100
        norm_num
    | none =>
      dsimp only
      cases hsel : select_highest_confidence
          (([(calendar_candidate P inp.events inp.now
              (current_event inp.events inp.now 36 24)).1,
             tfr_candidate inp.vip_recs]).filterMap id) with
      | some best =>
        have hmem := select_highest_confidence_mem _ _ hsel
        simp only [List.mem_filterMap, List.mem_cons, List.not_mem_nil, or_false,
          id_eq] at hmem
        obtain ⟨o, ho, hob⟩ := hmem
        have hbest : (calendar_candidate P inp.events inp.now
            (current_event inp.events inp.now 36 24)).1 = some best ∨
            tfr_candidate inp.vip_recs = some best := by
          rcases ho with ho | ho
          · exact Or.inl (ho ▸ hob)
          · exact Or.inr (ho ▸ hob)
        have hfacts : best.reason ∈ CANDIDATE_REASONS ∧
            0 ≤ best.confidence ∧ best.confidence ≤ 100 := by
          rcases hbest with hb | hb
          · obtain ⟨ev, hev, hconf⟩ := calendar_candidate_confidence P _ _ _ _ hb
            have hwin := current_event_window inp.events inp.now 36 24 ev hev
            have hage : -24 ≤ (inp.now - ev.dtstart_utc) / 3600 := by
              rcases hwin with ⟨h1, -⟩ | ⟨-, h2⟩
              · linarith
              · have : (ev.dtstart_utc - inp.now) / 3600 ≤ 24 := h2
                linarith [this]
            refine ⟨?_, ?_, ?_⟩
            · rcases calendar_candidate_reason P _ _ _ _ hb with h | h | h <;>
                rw [h] <;> decide
            · rw [hconf]
              linarith [cal_conf_lower ((inp.now - ev.dtstart_utc) / 3600)]
            · rw [hconf]
              exact cal_conf_upper _ hage
          · obtain ⟨hr, hc⟩ := tfr_candidate_spec _ _ hb
            rw [hr, hc]
            refine ⟨by decide, by norm_num, by norm_num⟩
        exact hfacts
      | none =>
        dsimp only
        cases hnews : inp.news with
        | some n =>
          dsimp only
          refine ⟨?_, ?_, ?_⟩
          · show (news_candidate n).reason ∈ CANDIDATE_REASONS
            unfold news_candidate
            rw [stamp_reason]
            show "newswire" ∈ CANDIDATE_REASONS
            decide
          · show (0:ℚ) ≤ (news_candidate n).confidence
            unfold news_candidate
            rw [stamp_confidence]
            show (0:ℚ) ≤ 35
            norm_num
          · show (news_candidate n).confidence ≤ 100
            unfold news_candidate
            rw [stamp_confidence]
            show (35:ℚ) ≤ 100
            norm_num
        | none =>
          dsimp only
          cases harr : arrival_load inp.arrival_file inp.now 7 with
          | some last =>
            dsimp only
            obtain ⟨hr, h10, h30⟩ := arrival_load_spec _ _ _ harr hts
            refine ⟨?_, ?_, ?_⟩
            · show (stamp last none ("Last aircraft arrival") none).reason
                ∈ CANDIDATE_REASONS
              rw [stamp_reason, hr]
              decide
            · show (0:ℚ) ≤ (stamp last none ("Last aircraft arrival") none).confidence
              rw [stamp_confidence]
              linarith
            · show (stamp last none ("Last aircraft arrival") none).confidence ≤ 100
              rw [stamp_confidence]
              linarith
          | none =>
            dsimp only
            refine ⟨?_, ?_, ?_⟩
            · show "unknown" ∈ CANDIDATE_REASONS
              decide
            · show (0:ℚ) ≤ 0
              norm_num
            · show (0:ℚ) ≤ 100
              norm_num
  rcases hpl : inp.plane with _ | p
  · have hcc : (current_coords P inp).1 =
        cascade_after_plane P inp (current_event inp.events inp.now 36 24) := by
      unfold current_coords
      rw [hpl]
    rw [hcc]
    exact hafter
  · by_cases hair : p.status = "airborne"
    · have hcc : (current_coords P inp).1 =
          { toCandidateCore := airborne_candidate p } := by
        unfold current_coords
        rw [hpl]
        dsimp only
        rw [if_pos hair]
      rw [hcc]
      have hconf : ({ toCandidateCore := airborne_candidate p } : Candidate).confidence =
          p.confidence.getD 95 := stamp_confidence _ _ _ _
      have hreason : ({ toCandidateCore := airborne_candidate p } : Candidate).reason =
          "plane_air" := stamp_reason _ _ _ _
      rw [hconf, hreason]
      refine ⟨by decide, ?_, ?_⟩ <;>
        rcases hc : p.confidence with _ | cv
      · norm_num
      · exact (hpc p cv hpl hc).1
      · norm_num
      · exact (hpc p cv hpl hc).2
    · by_cases hgr : p.status = "grounded" ∧
          plane_newer_than_event inp.plane (current_event inp.events inp.now 36 24) = true
      · have hcc : (current_coords P inp).1 =
            { toCandidateCore := grounded_candidate P.hav p inp.vip_recs inp.now } := by
          unfold current_coords
          rw [hpl]
          dsimp only
          rw [if_neg hair, if_pos (by rw [← hpl]; exact hgr)]
        rw [hcc]
        have hconf : ({ toCandidateCore := grounded_candidate P.hav p inp.vip_recs inp.now } :
            Candidate).confidence = (if near_tfr_check P.hav p inp.vip_recs then
              min 95 (p.confidence.getD 90 + 10) else p.confidence.getD 90) :=
          stamp_confidence _ _ _ _
        have hreason : ({ toCandidateCore := grounded_candidate P.hav p inp.vip_recs inp.now } :
            Candidate).reason = (if near_tfr_check P.hav p inp.vip_recs then
              "plane_tfr" else "plane_ground") := stamp_reason _ _ _ _
        have hbase : 0 ≤ p.confidence.getD 90 ∧ p.confidence.getD 90 ≤ 100 := by
          rcases hc : p.confidence with _ | cv
          · norm_num
          · exact hpc p cv hpl hc
        rw [hconf, hreason]
        by_cases hnear : near_tfr_check P.hav p inp.vip_recs
        · rw [if_pos hnear, if_pos hnear]
          refine ⟨by decide, ?_, ?_⟩
          · exact le_min (by norm_num) (by linarith [hbase.1])
          · exact le_trans (min_le_left _ _) (by norm_num)
        · rw [if_neg hnear, if_neg hnear]
          exact ⟨by decide, hbase.1, hbase.2⟩
      · have hcc : (current_coords P inp).1 =
            cascade_after_plane P inp (current_event inp.events inp.now 36 24) := by
          unfold current_coords
          rw [hpl]
          dsimp only
          rw [if_neg hair, if_neg (by rw [← hpl]; exact hgr)]
        rw [hcc]
        exact hafter

/-- When only the arrival cache yields a candidate, it wins (stamped). -/
theorem cascade_arrival_winner (P : CycleParams) (inp : CycleInput) (last : CandidateCore)
    (hplane : inp.plane = none)
    (hov : get_overnight_base P.hav P.localHour inp.events inp.now = none)
    (hcal : (calendar_candidate P inp.events inp.now
      (current_event inp.events inp.now 36 24)).1 = none)
    (htfr : tfr_candidate inp.vip_recs = none)
    (hnews : inp.news = none)
    (harr : arrival_load inp.arrival_file inp.now 7 = some last) :
    (current_coords P inp).1 =
      { toCandidateCore := stamp last none ("Last aircraft arrival") none } := by
  unfold current_coords
  rw [hplane]
  dsimp only
  unfold cascade_after_plane
  rw [hov]
  dsimp only
  rw [hcal, htfr, hnews, harr]
  rfl

/-- When the schedule branch yields the only candidate, it wins as-is. -/
theorem cascade_calendar_winner (P : CycleParams) (inp : CycleInput) (c : CandidateCore)
    (hplane : inp.plane = none)
    (hov : get_overnight_base P.hav P.localHour inp.events inp.now = none)
    (hcal : (calendar_candidate P inp.events inp.now
      (current_event inp.events inp.now 36 24)).1 = some c)
    (htfr : tfr_candidate inp.vip_recs = none) :
    (current_coords P inp).1 = { toCandidateCore := c } := by
  unfold current_coords
  rw [hplane]
  dsimp only
  unfold cascade_after_plane
  rw [hov]
  dsimp only
  rw [hcal, htfr]
  rfl

/-- The arrival-cache candidate of the C7 counterexample. -/
def c7Arrival : CandidateCore :=
  { lat := some 26, lon := some (-80), name := some ("Last known (jet arrival)"),
    reason := "last_known",
    confidence := ((max 10 (30 - pyInt ((0 - 0) / 86400 * 3)) : ℤ) : ℚ) }

/-- The schedule candidate of the C7 counterexample: alias hit at age 1 h,
whose decayed confidence `70 - 40/72 = 625/9` is not an integer. -/
def c7Calendar : CandidateCore :=
  { lat := some 38.897676, lon := some (-77.036529), name := some ("Oval Office, WH"),
    confidence := 625/9, reason := "calendar_alias", event_summary := some ("Meeting"),
    source_display := some ("Factba.se schedule, 1 h ago"),
    source_url := some FACTBASE_URL }

/-- **C7 (counterexample)**: the claim's closed tag set and integrality both
fail on the code. A cycle resolved from the arrival cache carries the
reason `"last_known"`, which is not in the claimed set (the spec's
`last_arrival` tag is never produced); and a schedule-derived winner of age
1 h carries the non-integer confidence `625/9` (it differs from its own
integer truncation). -/
theorem C7_counterexample :
    (current_coords testParams
      { plane := none, events := [], vip_recs := [], news := none,
        arrival_file := .good ⟨26, -80, 0⟩, now := 0 }).1.reason ∉
      (["plane_air", "plane_ground", "plane_tfr", "overnight_dc", "overnight_fl",
        "overnight_nj", "calendar_alias", "calendar_summary", "calendar_geocode",
        "tfr_json", "newswire", "last_arrival", "unknown"] : List String) ∧
    (current_coords testParams
      { plane := none, events := [⟨-3600, "Meeting", "Oval Office"⟩], vip_recs := [],
        news := none, arrival_file := .missing, now := 0 }).1.confidence = 625/9 ∧
    ((625 : ℚ)/9) ≠ ((pyInt ((625 : ℚ)/9) : ℤ) : ℚ) := by
  refine ⟨?_, ?_, ?_⟩
  · have harrA : arrival_load (.good ⟨26, -80, 0⟩) 0 7 = some c7Arrival := by
      simp only [arrival_load, c7Arrival]
      rw [if_neg (by norm_num : ¬((0:ℚ) - 0 > 7 * 86400))]
    have hwin := cascade_arrival_winner testParams
      { plane := none, events := [], vip_recs := [], news := none,
        arrival_file := .good ⟨26, -80, 0⟩, now := 0 } c7Arrival rfl rfl rfl rfl rfl harrA
    rw [hwin]
    dsimp only
    rw [stamp_reason]
    decide
  · have hw : within_window 0 ⟨-3600, "Meeting", "Oval Office"⟩ 36 true = true := by
      simp only [within_window, decide_eq_true_eq]
      norm_num
    have heff : has_effective_location ⟨-3600, "Meeting", "Oval Office"⟩ = true := by
      decide
    have hevB : current_event [⟨-3600, "Meeting", "Oval Office"⟩] 0 36 24 =
        some ⟨-3600, "Meeting", "Oval Office"⟩ := by
      simp only [current_event, List.filter, hw, List.insertionSort, List.orderedInsert,
        List.find?, heff]
    have hah : age_human (((0:ℚ) - -3600) / 3600) = "1 h ago" := by
      rw [show ((0:ℚ) - -3600) / 3600 = 1 by norm_num]
      simp only [age_human]
      rw [if_neg (by norm_num : ¬((1:ℚ) < 1)), if_pos (by norm_num : (1:ℚ) < 24)]
      rw [show pyInt 1 = 1 from by exact_mod_cast pyInt_intCast 1]
      decide
    have h1 : clean (pyStrip ("Oval Office")) = "oval office" := by decide
    have h2 : clean ("Meeting") = "meeting" := by decide
    have h3 : strSub ("no public events scheduled") ("meeting") = false := by decide
    have hp1 : strSub ("the white house") ("oval office") = false := by decide
    have hp2 : strSub ("oval office") ("oval office") = true := by decide
    have hfbne : ¬ (FACTBASE_URL = "") := by decide
    have happ : ("Factba.se schedule" ++ ", " ++ "1 h ago") =
        "Factba.se schedule, 1 h ago" := by decide
    have hcalB : (calendar_candidate testParams [⟨-3600, "Meeting", "Oval Office"⟩] 0
        (current_event [⟨-3600, "Meeting", "Oval Office"⟩] 0 36 24)).1 =
        some c7Calendar := by
      rw [hevB]
      simp only [calendar_candidate, h1, h2, h3, Bool.false_eq_true, if_false,
        PLACE_ALIASES, List.find?, hp1, hp2, c7Calendar, stamp, hah]
      norm_num [cal_conf, min_def, hfbne, happ]
    have hwin := cascade_calendar_winner testParams
      { plane := none, events := [⟨-3600, "Meeting", "Oval Office"⟩], vip_recs := [],
        news := none, arrival_file := .missing, now := 0 } c7Calendar rfl rfl hcalB rfl
    rw [hwin]
    rfl
  · have h9 : pyInt ((625:ℚ)/9) = 69 := by
      rw [pyInt_eq_floor (by norm_num)]
      rw [Int.floor_eq_iff]
      constructor
      · norm_num
      · norm_num
    rw [h9]
    norm_num

/-- Witness for the amended C7 (airborne cycle; flight-feed confidence in
range, no arrival record). -/
theorem C7_amended_witness :
    (current_coords testParams
      { plane := some testAirborne, events := [], vip_recs := [], news := none,
        arrival_file := .missing, now := 0 }).1.reason ∈ CANDIDATE_REASONS :=
  (C7_amended testParams
    { plane := some testAirborne, events := [], vip_recs := [], news := none,
      arrival_file := .missing, now := 0 }
    (by
      rintro p c hp hc
      simp only [Option.some.injEq] at hp
      subst hp
      rw [show testAirborne.confidence = some 95 from rfl, Option.some.injEq] at hc
      rw [← hc]
      exact ⟨by norm_num, by norm_num⟩)
    (by
      rintro r hr
      exact ArrivalFile.noConfusion hr)).1

/-! ## The overnight inference (C5) -/

/-- A `find?` skips any prefix on which the predicate is false. -/
theorem find?_drop_of_take_false {α : Type} (p : α → Bool) :
    ∀ (n : ℕ) (l : List α), (∀ a ∈ l.take n, p a = false) →
      l.find? p = (l.drop n).find? p
  | 0, _, _ => rfl
  | _ + 1, [], _ => rfl
  | n + 1, a :: as, hall => by
    rw [List.drop_succ_cons,
      List.find?_cons_of_neg _ (by
        rw [hall a (List.mem_cons_self a _)]
        exact Bool.false_ne_true)]
    exact find?_drop_of_take_false p n as (fun x hx => hall x (List.mem_cons_of_mem a hx))

/-- The alias table resolves a bare `"South Lawn"` location to the White
House point (entry 6; no earlier key matches). -/
theorem resolve_south_lawn :
    resolve_location_to_coords ("South Lawn") = some (38.897676, -77.036529) := by
  unfold resolve_location_to_coords
  rw [if_neg (by decide : ¬(("South Lawn" : String) = ""))]
  simp only [show pyStrip (pyLower ("South Lawn")) = "south lawn" from by decide]
  rw [find?_drop_of_take_false _ 6 PLACE_ALIASES (by decide)]
  rw [show PLACE_ALIASES.drop 6 =
    ("south lawn", ⟨38.897676, -77.036529, "South Lawn, WH"⟩) :: PLACE_ALIASES.drop 7 from
    rfl]
  rw [List.find?_cons_of_pos _ (by decide)]
  rfl

/-- The alias table resolves a bare `"Oval Office"` location to the White
House point (entry 1; the only earlier key does not match). -/
theorem resolve_oval_office :
    resolve_location_to_coords ("Oval Office") = some (38.897676, -77.036529) := by
  unfold resolve_location_to_coords
  rw [if_neg (by decide : ¬(("Oval Office" : String) = ""))]
  simp only [show pyStrip (pyLower ("Oval Office")) = "oval office" from by decide]
  rw [find?_drop_of_take_false _ 1 PLACE_ALIASES (by decide)]
  rw [show PLACE_ALIASES.drop 1 =
    ("oval office", ⟨38.897676, -77.036529, "Oval Office, WH"⟩) :: PLACE_ALIASES.drop 2 from
    rfl]
  rw [List.find?_cons_of_pos _ (by decide)]
  rfl

/-- The alias table resolves a bare `"Mar-a-Lago"` location to the
Mar-a-Lago point (entry 38; no earlier key matches). -/
theorem resolve_mar_a_lago :
    resolve_location_to_coords ("Mar-a-Lago") = some (26.675800, -80.036400) := by
  unfold resolve_location_to_coords
  rw [if_neg (by decide : ¬(("Mar-a-Lago" : String) = ""))]
  simp only [show pyStrip (pyLower ("Mar-a-Lago")) = "mar-a-lago" from by decide]
  rw [find?_drop_of_take_false _ 38 PLACE_ALIASES (by decide)]
  rw [show PLACE_ALIASES.drop 38 =
    ("mar-a-lago", ⟨26.675800, -80.036400, "Mar-a-Lago, FL"⟩) :: PLACE_ALIASES.drop 39 from
    rfl]
  rw [List.find?_cons_of_pos _ (by decide)]
  rfl

/-- A rectilinear stand-in for the haversine distance (kilometres per
degree of taxicab offset): it keeps each alias point inside its own
region's 80 km radius and far from the other regions' centres. -/
def c5Hav : ℚ → ℚ → ℚ → ℚ → ℚ := fun lat1 lon1 lat2 lon2 =>
  111 * (|lat1 - lat2| + |lon1 - lon2|)

/-- A concrete America/New_York hour table for the C5 instants: 18:00 and
19:00 on the evening side, 23:00 at resolution time, 09:00 next morning. -/
def c5LocalHour : ℚ → ℤ := fun t =>
  if t = -3600 then 18
  else if t = 0 then 19
  else if t = 14400 then 23
  else if t = 50400 then 9
  else 12

/-- Cycle parameters for the C5 scenario: no geocoder hits. -/
def c5Params : CycleParams :=
  ⟨c5Hav, c5LocalHour, fun _ => .ok [], fun _ => .ok none⟩

/-- The C5 counterexample feed, in feed order: an older Mar-a-Lago evening
event, a more recent South Lawn evening event, a morning Oval Office
event. -/
def c5Events : List Event :=
  [⟨-3600, "Dinner", "Mar-a-Lago"⟩,
   ⟨0, "Remarks", "South Lawn"⟩,
   ⟨50400, "Briefing", "Oval Office"⟩]

/-- The White House point classifies into the `dc` region under `c5Hav`. -/
theorem c5_region_wh : get_region c5Hav 38.897676 (-77.036529) = some ("dc") := by
  have hdc : c5Hav 38.897676 (-77.036529) (overnight_center ("dc")).1
      (overnight_center ("dc")).2 < 80 := by
    rw [show overnight_center ("dc") = (38.9072, -77.0369) from by
      unfold overnight_center; rw [if_pos rfl]]
    unfold c5Hav
    have h1 : |(38.897676 : ℚ) - 38.9072| < 1/100 := by
      rw [abs_lt]; constructor <;> norm_num
    have h2 : |(-77.036529 : ℚ) - -77.0369| < 1/100 := by
      rw [abs_lt]; constructor <;> norm_num
    linarith
  unfold get_region OVERNIGHT_REGIONS
  rw [List.find?_cons_of_pos _ (by dsimp only; exact decide_eq_true hdc)]

/-- The Mar-a-Lago point classifies into the `fl` region under `c5Hav`. -/
theorem c5_region_mal : get_region c5Hav 26.675800 (-80.036400) = some ("fl") := by
  have hdc : ¬ (c5Hav 26.675800 (-80.036400) (overnight_center ("dc")).1
      (overnight_center ("dc")).2 < 80) := by
    rw [show overnight_center ("dc") = (38.9072, -77.0369) from by
      unfold overnight_center; rw [if_pos rfl]]
    unfold c5Hav
    intro h
    have h1 : |(26.675800 : ℚ) - 38.9072| = 38.9072 - 26.675800 := by
      rw [abs_sub_comm, abs_of_nonneg (by norm_num)]
    have h2 : (0 : ℚ) ≤ |(-80.036400 : ℚ) - -77.0369| := abs_nonneg _
    rw [h1] at h
    linarith
  have hfl : c5Hav 26.675800 (-80.036400) (overnight_center ("fl")).1
      (overnight_center ("fl")).2 < 80 := by
    rw [show overnight_center ("fl") = (26.6758, -80.0364) from by
      unfold overnight_center
      rw [if_neg (by decide : ¬(("fl" : String) = "dc")), if_pos rfl]]
    unfold c5Hav
    have h1 : |(26.675800 : ℚ) - 26.6758| < 1/100 := by
      rw [abs_lt]; constructor <;> norm_num
    have h2 : |(-80.036400 : ℚ) - -80.0364| < 1/100 := by
      rw [abs_lt]; constructor <;> norm_num
    linarith
  unfold get_region OVERNIGHT_REGIONS
  rw [List.find?_cons_of_neg _ (by
    dsimp only
    rw [decide_eq_false hdc]
    exact Bool.false_ne_true)]
  rw [List.find?_cons_of_pos _ (by dsimp only; exact decide_eq_true hfl)]

/-- On the C5 feed the evening scan stops at the first qualifying event in
feed order — the older Mar-a-Lago dinner. -/
theorem c5_evening :
    find_evening_coords c5LocalHour c5Events 14400 = some (26.675800, -80.036400) := by
  unfold find_evening_coords c5Events
  rw [List.findSome?_cons_of_isSome _ (by
    dsimp only
    rw [if_pos ⟨by norm_num [c5LocalHour], by norm_num, by norm_num⟩, resolve_mar_a_lago]
    rfl)]
  dsimp only
  rw [if_pos ⟨by norm_num [c5LocalHour], by norm_num, by norm_num⟩, resolve_mar_a_lago]

/-- On the C5 feed the morning scan finds the Oval Office event. -/
theorem c5_morning :
    find_morning_coords c5LocalHour c5Events 14400 = some (38.897676, -77.036529) := by
  unfold find_morning_coords c5Events
  rw [List.findSome?_cons_of_isNone _ (by
    dsimp only
    rw [if_neg (fun h => absurd h.2.1 (by norm_num))]
    rfl)]
  rw [List.findSome?_cons_of_isNone _ (by
    dsimp only
    rw [if_neg (fun h => absurd h.2.1 (by norm_num))]
    rfl)]
  rw [List.findSome?_cons_of_isSome _ (by
    dsimp only
    rw [if_pos ⟨by norm_num [c5LocalHour], by norm_num, by norm_num⟩, resolve_oval_office]
    rfl)]
  dsimp only
  rw [if_pos ⟨by norm_num [c5LocalHour], by norm_num, by norm_num⟩, resolve_oval_office]

/-- On the C5 feed the inference comes up empty: the evening pick is in
`fl`, the morning pick in `dc`. -/
theorem c5_base_none : get_overnight_base c5Hav c5LocalHour c5Events 14400 = none := by
  unfold get_overnight_base
  dsimp only
  rw [show c5LocalHour 14400 = 23 from by norm_num [c5LocalHour]]
  rw [if_neg (by decide : ¬¬((23 : ℤ) ≥ 21 ∨ (23 : ℤ) < 8))]
  rw [if_neg (by decide : ¬(c5Events = []))]
  rw [c5_evening]
  dsimp only
  rw [c5_morning]
  dsimp only
  rw [c5_region_mal]
  dsimp only
  rw [if_neg (by
    rw [c5_region_wh]
    decide)]

/-- `arrival_load` only ever produces the reason `last_known`. -/
theorem arrival_load_reason (file : ArrivalFile) (now max_days : ℚ) (c : CandidateCore)
    (h : arrival_load file now max_days = some c) : c.reason = "last_known" := by
  unfold arrival_load at h
  cases file with
  | missing => exact Option.noConfusion h
  | corrupt => exact Option.noConfusion h
  | good d =>
    dsimp only at h
    split at h
    · exact Option.noConfusion h
    · rw [Option.some.injEq] at h
      rw [← h]

/-- With the flight feed silent and the overnight inference empty, the
cycle's winner never carries an overnight reason tag. -/
theorem cascade_not_overnight (P : CycleParams) (inp : CycleInput)
    (hplane : inp.plane = none)
    (hov : get_overnight_base P.hav P.localHour inp.events inp.now = none) :
    (current_coords P inp).1.reason ≠ "overnight_dc" ∧
    (current_coords P inp).1.reason ≠ "overnight_fl" ∧
    (current_coords P inp).1.reason ≠ "overnight_nj" := by
  have hcc : (current_coords P inp).1 =
      cascade_after_plane P inp (current_event inp.events inp.now 36 24) := by
    unfold current_coords
    rw [hplane]
  rw [hcc]
  unfold cascade_after_plane
  rw [hov]
  dsimp only
  cases hsel : select_highest_confidence
      (([(calendar_candidate P inp.events inp.now
          (current_event inp.events inp.now 36 24)).1,
         tfr_candidate inp.vip_recs]).filterMap id) with
  | some best =>
    dsimp only
    have hmem := select_highest_confidence_mem _ _ hsel
    simp only [List.mem_filterMap, List.mem_cons, List.not_mem_nil, or_false,
      id_eq] at hmem
    obtain ⟨o, ho, hob⟩ := hmem
    have hbest : (calendar_candidate P inp.events inp.now
        (current_event inp.events inp.now 36 24)).1 = some best ∨
        tfr_candidate inp.vip_recs = some best := by
      rcases ho with ho | ho
      · exact Or.inl (ho ▸ hob)
      · exact Or.inr (ho ▸ hob)
    show best.reason ≠ "overnight_dc" ∧ best.reason ≠ "overnight_fl" ∧
      best.reason ≠ "overnight_nj"
    rcases hbest with hb | hb
    · rcases calendar_candidate_reason P _ _ _ _ hb with h | h | h <;> rw [h] <;>
        exact ⟨by decide, by decide, by decide⟩
    · obtain ⟨hr, -⟩ := tfr_candidate_spec _ _ hb
      rw [hr]
      exact ⟨by decide, by decide, by decide⟩
  | none =>
    dsimp only
    cases hnews : inp.news with
    | some n =>
      dsimp only
      show ("newswire" : String) ≠ "overnight_dc" ∧
        ("newswire" : String) ≠ "overnight_fl" ∧
        ("newswire" : String) ≠ "overnight_nj"
      exact ⟨by decide, by decide, by decide⟩
    | none =>
      dsimp only
      cases harr : arrival_load inp.arrival_file inp.now 7 with
      | some last =>
        dsimp only
        have hr := arrival_load_reason _ _ _ _ harr
        show (stamp last none ("Last aircraft arrival") none).reason ≠ "overnight_dc" ∧
          (stamp last none ("Last aircraft arrival") none).reason ≠ "overnight_fl" ∧
          (stamp last none ("Last aircraft arrival") none).reason ≠ "overnight_nj"
        rw [stamp_reason, hr]
        exact ⟨by decide, by decide, by decide⟩
      | none =>
        dsimp only
        show ("unknown" : String) ≠ "overnight_dc" ∧
          ("unknown" : String) ≠ "overnight_fl" ∧
          ("unknown" : String) ≠ "overnight_nj"
        exact ⟨by decide, by decide, by decide⟩

/-- **C5 (counterexample)**: both overnight scans take the first qualifying
event in feed order, not the most recent evening / soonest morning one.
Here the feed lists an older Mar-a-Lago dinner before a more recent South
Lawn evening event; the most recent qualifying evening event and the
soonest qualifying morning event both resolve to the `dc` region during
the active overnight window — the claim's premises — yet the inference
returns nothing (the code pairs the Mar-a-Lago pick with the `dc` morning)
and the cycle's winner does not carry `overnight_dc`. -/
theorem C5_counterexample :
    (c5LocalHour 14400 ≥ 21 ∨ c5LocalHour 14400 < 8) ∧
    (c5LocalHour 0 ≥ 17 ∧ 0 < ((14400 : ℚ) - 0) / 3600 ∧
      ((14400 : ℚ) - 0) / 3600 ≤ 14) ∧
    resolve_location_to_coords ("South Lawn") = some (38.897676, -77.036529) ∧
    get_region c5Hav 38.897676 (-77.036529) = some ("dc") ∧
    ((-3600 : ℚ) < 0 ∧ ¬(0 < ((14400 : ℚ) - 50400) / 3600)) ∧
    (c5LocalHour 50400 < 12 ∧ 0 < ((50400 : ℚ) - 14400) / 3600 ∧
      ((50400 : ℚ) - 14400) / 3600 ≤ 18) ∧
    resolve_location_to_coords ("Oval Office") = some (38.897676, -77.036529) ∧
    (¬(0 < ((-3600 : ℚ) - 14400) / 3600) ∧ ¬(0 < ((0 : ℚ) - 14400) / 3600)) ∧
    get_overnight_base c5Hav c5LocalHour c5Events 14400 = none ∧
    (current_coords c5Params
      { plane := none, events := c5Events, vip_recs := [], news := none,
        arrival_file := .missing, now := 14400 }).1.reason ≠ "overnight_dc" := by
  refine ⟨by norm_num [c5LocalHour],
    ⟨by norm_num [c5LocalHour], by norm_num, by norm_num⟩,
    resolve_south_lawn, c5_region_wh,
    ⟨by norm_num, by norm_num⟩,
    ⟨by norm_num [c5LocalHour], by norm_num, by norm_num⟩,
    resolve_oval_office,
    ⟨by norm_num, by norm_num⟩,
    c5_base_none, ?_⟩
  exact (cascade_not_overnight c5Params
    { plane := none, events := c5Events, vip_recs := [], news := none,
      arrival_file := .missing, now := 14400 } rfl c5_base_none).1

/-- **C5 (amended)**: the overnight inference yields no result outside the
21:00–08:00 local window, when either scan is empty, or when the regions of
the two picks differ or are unknown; when the window is active and the
first-in-feed-order qualifying evening pick and morning pick classify into
the same region, it returns that region's fixed base, and (with the flight
feed silent) the cycle's winner is the base at confidence 58 with the
region-specific reason tag. -/
theorem C5_amended (P : CycleParams) (inp : CycleInput)
    (hplane : inp.plane = none) :
    (¬(P.localHour inp.now ≥ 21 ∨ P.localHour inp.now < 8) →
      get_overnight_base P.hav P.localHour inp.events inp.now = none) ∧
    (find_evening_coords P.localHour inp.events inp.now = none →
      get_overnight_base P.hav P.localHour inp.events inp.now = none) ∧
    (find_morning_coords P.localHour inp.events inp.now = none →
      get_overnight_base P.hav P.localHour inp.events inp.now = none) ∧
    (∀ ec mc, find_evening_coords P.localHour inp.events inp.now = some ec →
      find_morning_coords P.localHour inp.events inp.now = some mc →
      (∀ r, ¬(get_region P.hav ec.1 ec.2 = some r ∧
        get_region P.hav mc.1 mc.2 = some r)) →
      get_overnight_base P.hav P.localHour inp.events inp.now = none) ∧
    (∀ ec mc r, (P.localHour inp.now ≥ 21 ∨ P.localHour inp.now < 8) →
      find_evening_coords P.localHour inp.events inp.now = some ec →
      find_morning_coords P.localHour inp.events inp.now = some mc →
      get_region P.hav ec.1 ec.2 = some r →
      get_region P.hav mc.1 mc.2 = some r →
      get_overnight_base P.hav P.localHour inp.events inp.now =
        some (overnight_coords r) ∧
      (current_coords P inp).1.confidence = 58 ∧
      (current_coords P inp).1.reason = overnight_reason (overnight_coords r).name) := by
  refine ⟨?_, ?_, ?_, ?_, ?_⟩
  · intro h
    unfold get_overnight_base
    dsimp only
    rw [if_pos h]
  · intro h
    unfold get_overnight_base
    dsimp only
    split
    · rfl
    · split
      · rfl
      · rw [h]
  · intro h
    unfold get_overnight_base
    dsimp only
    split
    · rfl
    · split
      · rfl
      · cases he : find_evening_coords P.localHour inp.events inp.now with
        | none => rfl
        | some ec =>
          dsimp only
          rw [h]
  · intro ec mc he hm hnomatch
    unfold get_overnight_base
    dsimp only
    split
    · rfl
    · split
      · rfl
      · rw [he]
        dsimp only
        rw [hm]
        dsimp only
        cases hr : get_region P.hav ec.1 ec.2 with
        | none => rfl
        | some r =>
          dsimp only
          rw [if_neg (fun hc => hnomatch r ⟨hr, hc⟩)]
  · intro ec mc r hw he hm hr1 hr2
    have hbase : get_overnight_base P.hav P.localHour inp.events inp.now =
        some (overnight_coords r) := by
      unfold get_overnight_base
      dsimp only
      rw [if_neg (not_not_intro hw)]
      have hne : ¬(inp.events = []) := by
        intro h0
        rw [h0] at he
        exact Option.noConfusion he
      rw [if_neg hne, he]
      dsimp only
      rw [hm]
      dsimp only
      rw [hr1]
      dsimp only
      rw [if_pos hr2]
    have hcc : (current_coords P inp).1 =
        { toCandidateCore := overnight_candidate (overnight_coords r) } := by
      unfold current_coords
      rw [hplane]
      dsimp only
      unfold cascade_after_plane
      rw [hbase]
    refine ⟨hbase, ?_, ?_⟩
    · rw [hcc]
      show (overnight_candidate (overnight_coords r)).confidence = 58
      unfold overnight_candidate
      rw [stamp_confidence]
    · rw [hcc]
      show (overnight_candidate (overnight_coords r)).reason =
        overnight_reason (overnight_coords r).name
      unfold overnight_candidate
      rw [stamp_reason]

/-- The C5 witness feed: a South Lawn evening event and an Oval Office
morning event, both resolving into the `dc` region. -/
def c5WitnessEvents : List Event :=
  [⟨0, "Remarks", "South Lawn"⟩, ⟨50400, "Briefing", "Oval Office"⟩]

/-- Witness for the amended C5: a matching `dc` evening→morning pattern
returns the White House base and the cycle winner carries confidence 58 and
`overnight_dc`. -/
theorem C5_amended_witness :
    get_overnight_base c5Hav c5LocalHour c5WitnessEvents 14400 =
      some (overnight_coords ("dc")) ∧
    (current_coords c5Params
      { plane := none, events := c5WitnessEvents, vip_recs := [], news := none,
        arrival_file := .missing, now := 14400 }).1.confidence = 58 ∧
    (current_coords c5Params
      { plane := none, events := c5WitnessEvents, vip_recs := [], news := none,
        arrival_file := .missing, now := 14400 }).1.reason = "overnight_dc" := by
  have hev : find_evening_coords c5LocalHour c5WitnessEvents 14400 =
      some (38.897676, -77.036529) := by
    unfold find_evening_coords c5WitnessEvents
    rw [List.findSome?_cons_of_isSome _ (by
      dsimp only
      rw [if_pos ⟨by norm_num [c5LocalHour], by norm_num, by norm_num⟩, resolve_south_lawn]
      rfl)]
    dsimp only
    rw [if_pos ⟨by norm_num [c5LocalHour], by norm_num, by norm_num⟩, resolve_south_lawn]
  have hmor : find_morning_coords c5LocalHour c5WitnessEvents 14400 =
      some (38.897676, -77.036529) := by
    unfold find_morning_coords c5WitnessEvents
    rw [List.findSome?_cons_of_isNone _ (by
      dsimp only
      rw [if_neg (fun h => absurd h.2.1 (by norm_num))]
      rfl)]
    rw [List.findSome?_cons_of_isSome _ (by
      dsimp only
      rw [if_pos ⟨by norm_num [c5LocalHour], by norm_num, by norm_num⟩, resolve_oval_office]
      rfl)]
    dsimp only
    rw [if_pos ⟨by norm_num [c5LocalHour], by norm_num, by norm_num⟩, resolve_oval_office]
  obtain ⟨hbase, hconf, hreason⟩ :=
    (C5_amended c5Params
      { plane := none, events := c5WitnessEvents, vip_recs := [], news := none,
        arrival_file := .missing, now := 14400 } rfl).2.2.2.2
      (38.897676, -77.036529) (38.897676, -77.036529) ("dc")
      (Or.inl (by norm_num [c5Params, c5LocalHour]))
      hev hmor c5_region_wh c5_region_wh
  refine ⟨hbase, hconf, ?_⟩
  rw [hreason]
  decide

/-! ## The error-handling layer (C1) -/

/-- When the news extraction does not raise, the fallible cascade agrees
with the pure one on the extracted value. -/
theorem run_cascade_ok (P : CycleParams) (pyFloatStr : String → Option ℚ)
    (nn nf : Except String Json) (inp : CycleInput) (event : Option Event)
    (v : Option NewsCoord)
    (hnews : get_latest_location pyFloatStr nn nf = .ok v)
    (hv : inp.news = v) :
    run_cascade P pyFloatStr nn nf inp.events inp.vip_recs inp.arrival_file inp.now
      event = .ok (cascade_after_plane P inp event, inp.arrival_file) := by
  unfold run_cascade cascade_after_plane
  cases hov : get_overnight_base P.hav P.localHour inp.events inp.now with
  | some base => rfl
  | none =>
    dsimp only
    cases hsel : select_highest_confidence
        (([(calendar_candidate P inp.events inp.now event).1,
           tfr_candidate inp.vip_recs]).filterMap id) with
    | some best => rfl
    | none =>
      dsimp only
      rw [hnews]
      dsimp only
      rw [hv]
      cases v with
      | some n => rfl
      | none =>
        dsimp only
        cases harr : arrival_load inp.arrival_file inp.now 7 with
        | some last => rfl
        | none => rfl

/-- **C1 (counterexample)**: two feed failures escape the cycle. A failing
schedule fetch propagates (`_fetch_events` calls `raise_for_status` and no
caller on the `current_coords` path catches it); and a *successful* news
fetch whose valid-JSON payload is malformed — here a top-level array, so
`data.get("articles", [])` raises `AttributeError` outside the probe's
`try` — propagates from the newswire step with every other feed silent. -/
theorem C1_counterexample :
    run_cycle testParams (fun _ => none)
      { opensky := .ok none, adsbfi := .ok none, calendar := .error ("HTTP 503"),
        vip := .ok [], newsNarrow := .ok (.obj []), newsFallback := .ok (.obj []) }
      .missing 0 = .error ("HTTP 503") ∧
    run_cycle testParams (fun _ => none)
      { opensky := .ok none, adsbfi := .ok none, calendar := .ok [],
        vip := .ok [], newsNarrow := .ok (.arr [.obj []]),
        newsFallback := .ok (.obj []) }
      .missing 0 = .error ("AttributeError") :=
  ⟨rfl, rfl⟩

/-- **C1 (amended)**: flight and TFR feed errors and the news probes'
fetch errors are contained — with a healthy calendar and a news extraction
that does not raise, the cycle returns the `current_coords` value on the
degraded inputs. Two error paths escape: a calendar feed error propagates,
and when the cascade reaches the newswire step, an extraction error on a
fetched news payload (`AttributeError`/`TypeError` outside the probes'
`try`, only `KeyError`/`ValueError` being caught) propagates. -/
theorem C1_amended (P : CycleParams) (pyFloatStr : String → Option ℚ)
    (B : FeedBehaviors) (file : ArrivalFile) (now : ℚ) :
    (∀ e, B.calendar = .error e →
      run_cycle P pyFloatStr B file now = .error e) ∧
    (∀ events v, B.calendar = .ok events →
      get_latest_location pyFloatStr B.newsNarrow B.newsFallback = .ok v →
      run_cycle P pyFloatStr B file now = .ok (current_coords P
        { plane := get_plane_state_model B.opensky B.adsbfi,
          events := events,
          vip_recs := vip_json_model TFR_ENABLED B.vip,
          news := v,
          arrival_file := file,
          now := now })) ∧
    (∀ events pe, B.calendar = .ok events →
      get_latest_location pyFloatStr B.newsNarrow B.newsFallback = .error pe →
      get_plane_state_model B.opensky B.adsbfi = none →
      get_overnight_base P.hav P.localHour events now = none →
      select_highest_confidence
        (([(calendar_candidate P events now (current_event events now 36 24)).1,
           tfr_candidate (vip_json_model TFR_ENABLED B.vip)]).filterMap id) = none →
      run_cycle P pyFloatStr B file now = .error (pe.name)) := by
  refine ⟨?_, ?_, ?_⟩
  · intro e h
    unfold run_cycle
    rw [h]
  · intro events v hcal hnews
    unfold run_cycle current_coords
    rw [hcal]
    dsimp only
    cases hgp : get_plane_state_model B.opensky B.adsbfi with
    | none =>
      dsimp only
      exact run_cascade_ok P pyFloatStr B.newsNarrow B.newsFallback
        { plane := none, events := events, vip_recs := vip_json_model TFR_ENABLED B.vip,
          news := v, arrival_file := file, now := now }
        (current_event events now 36 24) v hnews rfl
    | some p =>
      dsimp only
      by_cases hair : p.status = "airborne"
      · rw [if_pos hair, if_pos hair]
      · rw [if_neg hair, if_neg hair]
        by_cases hgr : p.status = "grounded" ∧
            plane_newer_than_event (some p) (current_event events now 36 24) = true
        · rw [if_pos hgr, if_pos hgr]
        · rw [if_neg hgr, if_neg hgr]
          exact run_cascade_ok P pyFloatStr B.newsNarrow B.newsFallback
            { plane := some p, events := events,
              vip_recs := vip_json_model TFR_ENABLED B.vip,
              news := v, arrival_file := file, now := now }
            (current_event events now 36 24) v hnews rfl
  · intro events pe hcal hnews hgp hov hsel
    unfold run_cycle
    rw [hcal]
    dsimp only
    rw [hgp]
    dsimp only
    unfold run_cascade
    rw [hov]
    dsimp only
    rw [hsel]
    dsimp only
    rw [hnews]

/-- Witness for the amended C1: with the flight and TFR feeds erroring and
both news probes' fetches erroring, but the calendar healthy, the cycle
returns a value (the feed errors degrade to absent inputs). -/
theorem C1_amended_witness :
    run_cycle testParams (fun _ => none)
      { opensky := .error ("timeout"), adsbfi := .error ("timeout"),
        calendar := .ok [], vip := .error ("bad json"),
        newsNarrow := .error ("HTTP 500"), newsFallback := .error ("timeout") }
      .missing 0 =
    .ok (current_coords testParams
      { plane := none, events := [], vip_recs := [], news := none,
        arrival_file := .missing, now := 0 }) := by
  have h := (C1_amended testParams (fun _ => none)
      { opensky := .error ("timeout"), adsbfi := .error ("timeout"),
        calendar := .ok [], vip := .error ("bad json"),
        newsNarrow := .error ("HTTP 500"), newsFallback := .error ("timeout") }
      .missing 0).2.1 [] none rfl rfl
  exact h

end RainOnTrump
